import Mathlib

/-! Verification of the Solar language front end: tokenizer, line
classifier, statement and expression parsers, lowering pass and the
sandboxed expression evaluator, modelled shallowly from the Python
sources of this repository: `interpreter/interpreter.py` (Solar v1.0.2)
and `src/solar/engine.py` (Solar v1.0.3).

Strings are modelled as Lean `String` with ASCII-scoped character
predicates; Python `float` values arising from decimal literal text are
modelled as exact rationals (`repr` of a Python float round-trips, so the
stored value is exactly the parsed literal value in both the model and
the host). Python exceptions become `Except` errors; the distinction
between `SyntaxError` and other exceptions (`IndexError`) is kept, since
the classifier catches only the former. -/

namespace Solar

/-- First `some` in a list of options: the first offending node wins,
mirroring a walk that raises at the first failing check. -/
def firstSome {α : Type} : List (Option α) → Option α
  | [] => none
  | x :: rest => match x with | some v => some v | Option.none => firstSome rest

/-- Reduction of `Except.bind` on a success, for rewriting do-blocks. -/
theorem exceptBind_ok {ε α β : Type} (a : α) (f : α → Except ε β) :
    (Except.ok a >>= f : Except ε β) = f a := rfl

/-- Reduction of `Except.bind` on an error, for rewriting do-blocks. -/
theorem exceptBind_err {ε α β : Type} (e : ε) (f : α → Except ε β) :
    ((Except.error e : Except ε α) >>= f : Except ε β) = Except.error e := rfl

/-- Decidable equality of `Except` results, for evaluating concrete
parses and runs. -/
instance {ε α : Type} [DecidableEq ε] [DecidableEq α] : DecidableEq (Except ε α) :=
  fun x y =>
    match x, y with
    | .ok a, .ok b =>
      if h : a = b then isTrue (by rw [h]) else isFalse (fun hc => by cases hc; exact h rfl)
    | .error e, .error f =>
      if h : e = f then isTrue (by rw [h]) else isFalse (fun hc => by cases hc; exact h rfl)
    | .ok _, .error _ => isFalse (fun hc => by cases hc)
    | .error _, .ok _ => isFalse (fun hc => by cases hc)

mutual

/-- Nonempty ASCII digit run, single underscores allowed strictly between
digits: the shape accepted inside Python numeric literals and by the host
`int`/`float` parsers. -/
def digitsOk : List Char → Bool
  | [] => false
  | c :: rest => c.isDigit && digitsTailOk rest

/-- Tail of a digit run: digits, or an underscore that must be followed by
another digit run. -/
def digitsTailOk : List Char → Bool
  | [] => true
  | c :: rest => if c = '_' then digitsOk rest else c.isDigit && digitsTailOk rest

end

/-- Numeric value of a digit run, ignoring underscores. -/
def digitsVal (l : List Char) : Nat :=
  l.foldl (fun acc c => if c = '_' then acc else acc * 10 + (c.toNat - 48)) 0

/-- Split an optional leading sign off a character list. -/
def splitSign : List Char → Int × List Char
  | '+' :: rest => (1, rest)
  | '-' :: rest => (-1, rest)
  | cs => (1, cs)

/-- Model of the host `int(s)` conversion: optional sign and a digit run
with underscores between digits; everything else fails.  (The host also
strips surrounding whitespace and accepts non-ASCII digits; tokens handed
to it here contain neither.) -/
def pyIntParse (s : String) : Option Int :=
  let (sign, cs) := splitSign s.toList
  if digitsOk cs then some (sign * (digitsVal cs : Int)) else none

/-- Characters that may occur in a digit run. -/
def isDigitRunChar (c : Char) : Bool := c.isDigit || c = '_'

/-- Exponent suffix of a float literal: optional sign and a digit run. -/
def pyExpParse (cs : List Char) : Option Int :=
  let (sign, cs2) := splitSign cs
  if digitsOk cs2 then some (sign * (digitsVal cs2 : Int)) else none

/-- The exact rational `sign * mant * 10^e / 10^nd`, built with a single
normalizing constructor so that the value is kernel-computable. -/
def decimalRat (sign : Int) (mant : Nat) (nd : Nat) (e : Int) : Rat :=
  if e ≥ 0 then mkRat (sign * (mant : Int) * ((10 ^ e.toNat : Nat) : Int)) (10 ^ nd)
  else mkRat (sign * (mant : Int)) (10 ^ (nd + e.natAbs))

/-- Model of the host `float(s)` conversion on finite decimal input:
optional sign, integer part and/or fractional part around an optional
dot, optional decimal exponent.  The value is the exact rational the
literal denotes.  (`inf`/`nan` spellings are not modelled; the call sites
in the sources only reach `float` on tokens containing a dot, which those
spellings never satisfy.) -/
def pyFloatParse (s : String) : Option Rat :=
  let (sign, cs) := splitSign s.toList
  let ip := cs.takeWhile isDigitRunChar
  let rest1 := cs.drop ip.length
  let parseFrom : List Char → List Char → List Char → Option Rat := fun ipart fpart rest3 =>
    if (ipart.isEmpty || digitsOk ipart) && (fpart.isEmpty || digitsOk fpart)
        && !(ipart.isEmpty && fpart.isEmpty) then
      let nd := (fpart.filter Char.isDigit).length
      let mant := digitsVal (ipart ++ fpart)
      match rest3 with
      | [] => some (decimalRat sign mant nd 0)
      | e :: rest4 =>
        if e = 'e' || e = 'E' then
          (pyExpParse rest4).map (fun ex => decimalRat sign mant nd ex)
        else none
    else none
  match rest1 with
  | '.' :: rest2 =>
      let fp := rest2.takeWhile isDigitRunChar
      parseFrom ip fp (rest2.drop fp.length)
  | _ => parseFrom ip [] rest1

/-- Model of `str.strip()`: drop leading and trailing whitespace (structural,
kernel-computable replacement of the library `trim`). -/
def pyStrip (s : String) : String :=
  String.mk (((s.data.dropWhile Char.isWhitespace).reverse.dropWhile
    Char.isWhitespace).reverse)

/-- Model of `str.lstrip()`. -/
def pyLStrip (s : String) : String :=
  String.mk (s.data.dropWhile Char.isWhitespace)

/-- Model of `str.rstrip()`. -/
def pyRStrip (s : String) : String :=
  String.mk ((s.data.reverse.dropWhile Char.isWhitespace).reverse)

/-- Model of `str.startswith(pre)` (structural). -/
def startsWithS (s pre : String) : Bool := pre.data.isPrefixOf s.data

/-- Model of `str.endswith(suf)` (structural). -/
def endsWithS (s suf : String) : Bool := suf.data.reverse.isPrefixOf s.data.reverse

/-- Drop the first `n` characters (structural). -/
def dropS (s : String) (n : Nat) : String := String.mk (s.data.drop n)

/-- Drop the last `n` characters (structural). -/
def dropRightS (s : String) (n : Nat) : String :=
  String.mk (s.data.take (s.data.length - n))

/-- Tail of the separator-joined rendering. -/
def joinSepGo (sep : String) (acc : String) : List String → String
  | [] => acc
  | b :: bs => joinSepGo sep (acc ++ sep ++ b) bs

/-- Model of `sep.join(list)` / `String.intercalate` (structural). -/
def joinSep (sep : String) : List String → String
  | [] => ""
  | a :: asTail => joinSepGo sep a asTail

/-- Split a character list at every occurrence of `c`, keeping empty
segments. -/
def splitChar (c : Char) : List Char → List (List Char)
  | [] => [[]]
  | x :: rest =>
    if x = c then [] :: splitChar c rest
    else
      match splitChar c rest with
      | [] => [[x]]
      | g :: gs => (x :: g) :: gs

/-- Model of `str.split(c)` for a one-character separator (structural). -/
def splitOnCharS (s : String) (c : Char) : List String :=
  (splitChar c s.data).map String.mk

/-- Identifier start character: ASCII letter or underscore (scope of the
model for the host `str.isidentifier`). -/
def isIdentStart (c : Char) : Bool := c.isAlpha || c = '_'

/-- Identifier continuation character: ASCII letter, digit or underscore. -/
def isIdentCont (c : Char) : Bool := c.isAlphanum || c = '_'

/-- Model of `str.isidentifier`: letters, digits and underscores, not
starting with a digit, nonempty (ASCII scope). -/
def pyIsIdentifier (s : String) : Bool :=
  match s.toList with
  | [] => false
  | c :: rest => isIdentStart c && rest.all isIdentCont

/-- Shared string reader of both tokenizers (`read_string` in
`interpreter.py` and the quote branch of `_tokenize_with_quotes` in
`engine.py`, which are textually identical): consume characters after the
opening quote, a backslash escaping the single following character, up to
the matching unescaped quote.  Returns the unescaped content and the
remaining characters, or `none` when the quote is unterminated. -/
def readStr (q : Char) : List Char → Option (List Char × List Char)
  | [] => none
  | c :: rest =>
    if c = '\\' then
      match rest with
      | x :: rest2 => (readStr q rest2).map (fun p => (x :: p.1, p.2))
      | [] => none
    else if c = q then some ([], rest)
    else (readStr q rest).map (fun p => (c :: p.1, p.2))

/-- Errors of the front end.  `syntaxErr` models a Python `SyntaxError`
(the only exception the line classifier catches); `indexErr` models an
`IndexError` escaping from an unguarded list subscript; `typeErr` models
a `TypeError`; the runtime errors carry the offending name.  `fuelOut` is
an artifact of the fuel-bounded model recursion and corresponds to no
source behaviour. -/
inductive SolErr where
  | syntaxErr (msg : String)
  | indexErr
  | typeErr
  | unknownFunction (name : String)
  | arityErr
  | fuelOut
deriving DecidableEq, Repr

/-- A number as produced by the literal parsers: an `int` or a `float`
(the latter modelled as an exact rational). -/
inductive PyNum where
  | int (z : Int)
  | float (q : Rat)
deriving DecidableEq, Repr

namespace Engine

/-! Shallow embedding of `src/solar/engine.py` (Solar v1.0.3): AST,
tokenizer `_tokenize_with_quotes`, expression parser `_parse_expr`, line
parser `_parse_line`, program parser `parse_program`, and the semantics
of the compiled Python that `_emit_stmt`/`compile_to_python` produce,
as an instruction list over a variable store and a function registry. -/

/-- Expressions of the engine AST (`Number`, `String`, `Var`,
`CallExpr`). -/
inductive EExpr where
  | num (v : PyNum)
  | str (s : String)
  | var (name : String)
  | callE (name : String) (args : List EExpr)

/-- Statements of the engine AST (`Let`, `Print`, `SolarDef`, `CallStmt`,
`UiStmt`).  A `UiStmt` stores the raw argument tokens (already unquoted)
together with the per-token quoted flags, exactly as the dataclass does. -/
inductive EStmt where
  | letS (name : String) (expr : EExpr)
  | print (exprs : List EExpr)
  | solarDef (name : String) (args : List String) (body : List EStmt)
  | callStmt (name : String) (args : List EExpr)
  | ui (cmd : String) (args : List String) (quoted : List Bool)

/-- One step of `_tokenize_with_quotes`: skip whitespace, then read a
quoted string, or an unquoted run up to the next whitespace.  Fuel is the
length of the line plus one; every iteration consumes at least one
character. -/
def tokenizeQEAux : Nat → List Char → List (String × Bool) →
    Except SolErr (List (String × Bool))
  | 0, _, _ => .error .fuelOut
  | fuel + 1, cs, acc =>
    let cs := cs.dropWhile Char.isWhitespace
    match cs with
    | [] => .ok acc.reverse
    | c :: rest =>
      if c = '"' || c = (Char.ofNat 39) then
        match readStr c rest with
        | some (content, rest2) =>
            tokenizeQEAux fuel rest2 ((String.mk content, true) :: acc)
        | none =>
            .error (.syntaxErr "Oh noes! Solar threw an error: unclosed string literal")
      else
        let run := cs.takeWhile (fun ch => !ch.isWhitespace)
        tokenizeQEAux fuel (cs.drop run.length) ((String.mk run, false) :: acc)

/-- Translation of `_tokenize_with_quotes(line)`: the token list with quoted flags. -/
def tokenizeQE (line : String) : Except SolErr (List (String × Bool)) :=
  tokenizeQEAux (line.length + 1) line.toList []

/-- Translation of `_parse_expr(tok, was_quoted)`: quoted tokens are string literals;
otherwise try `float` when the token contains a dot, else `int`; on a
conversion failure the token becomes a variable reference (the engine has
no identifier check and no raw-expression fallback). -/
def parseExprE (tok : String) (wasQuoted : Bool) : EExpr :=
  if wasQuoted then .str tok
  else if tok.toList.contains '.' then
    match pyFloatParse tok with
    | some q => .num (.float q)
    | none => .var tok
  else
    match pyIntParse tok with
    | some z => .num (.int z)
    | none => .var tok

/-- Translation of `_parse_line(line, lineno)`: dispatch on the head token.  `let`
requires at least four tokens with `=` third (extra right-hand tokens
beyond the fourth are dropped, as in the source); `print` takes one or
more argument tokens; `ui` keeps its raw tokens and quoted flags; any
other head is a bare function call. -/
def parseLineE (line : String) (lineno : Nat) : Except SolErr EStmt := do
  let tq ← tokenizeQE line
  match tq with
  | [] => .error (.syntaxErr "empty")
  | (head, _) :: _ =>
    let parts := tq.map Prod.fst
    let quoted := tq.map Prod.snd
    if head = "let" then
      if parts.length < 4 || parts.get? 2 ≠ some "=" then
        .error (.syntaxErr ("Oh noes! Solar threw an error: Line " ++ toString lineno ++
          ": expected `let <name> = <expr>`"))
      else
        match parts.get? 1, parts.get? 3, quoted.get? 3 with
        | some name, some tok, some q => .ok (.letS name (parseExprE tok q))
        | _, _, _ => .error .indexErr
    else if head = "print" then
      if parts.length < 2 then
        .error (.syntaxErr ("Oh noes! Solar threw an error: Line " ++ toString lineno ++
          ": expected `print <expr...>`"))
      else
        .ok (.print ((tq.drop 1).map (fun p => parseExprE p.1 p.2)))
    else if head = "ui" then
      if parts.length < 2 then
        .error (.syntaxErr ("Oh noes! Solar threw an error: Line " ++ toString lineno ++
          ": bad ui statement"))
      else
        match parts.get? 1 with
        | some cmd => .ok (.ui cmd (parts.drop 2) (quoted.drop 2))
        | none => .error .indexErr
    else
      .ok (.callStmt head ((tq.drop 1).map (fun p => parseExprE p.1 p.2)))

/-- Header of a `solar_def` line (already stripped): must end with a
colon; an optional parenthesized comma-separated parameter list. -/
def parseDefHeader (line : String) : Except SolErr (String × List String) :=
  let rest := pyStrip (dropS line ("solar_def".length))
  if !(endsWithS rest ":") then
    .error (.syntaxErr "Oh noes! Solar threw an error: solar_def must end with a colon")
  else
    let rest2 := pyStrip (dropRightS rest 1)
    if rest2.toList.contains '(' && endsWithS rest2 ")" then
      match rest2.toList.findIdx? (fun c => c = '(') with
      | some i =>
        let name := String.mk (rest2.toList.take i)
        let argStr := String.mk ((rest2.toList.drop (i + 1)).dropLast)
        let args :=
          if pyStrip argStr ≠ "" then
            ((splitOnCharS argStr ',').map pyStrip).filter (fun a => a ≠ "")
          else []
        .ok (pyStrip name, args)
      | none => .ok (pyStrip rest2, [])
    else
      .ok (pyStrip rest2, [])

/-- Body loop of a `solar_def` block: consume lines, skipping blanks and
comments, until a stripped `end` line; every other line is parsed as a
statement.  Returns the body, the remaining lines and the next line
number.  When no `end` line occurs the whole rest of the source is
consumed and no error is raised. -/
def parseBodyE : List String → Nat → Except SolErr (List EStmt × List String × Nat)
  | [], lineno => .ok ([], [], lineno)
  | raw :: rest, lineno =>
    let inner := pyStrip raw
    if inner = "" then parseBodyE rest (lineno + 1)
    else if startsWithS inner "#" then parseBodyE rest (lineno + 1)
    else if inner = "end" then .ok ([], rest, lineno + 1)
    else do
      let st ← parseLineE inner lineno
      let (body, rem, ln2) ← parseBodyE rest (lineno + 1)
      .ok (st :: body, rem, ln2)

/-- Translation of `parse_program`, over the list of source lines (the source applies
`splitlines` first).  Fuel bounds the outer loop; `lines.length + 1` is
always sufficient since each iteration consumes at least one line. -/
def parseProgramEAux : Nat → List String → Nat → Except SolErr (List EStmt)
  | 0, _, _ => .error .fuelOut
  | _ + 1, [], _ => .ok []
  | fuel + 1, raw :: rest, lineno =>
    let line := pyStrip raw
    if line = "" then parseProgramEAux fuel rest (lineno + 1)
    else if startsWithS line "#" then parseProgramEAux fuel rest (lineno + 1)
    else if startsWithS line "solar_def" then do
      let (name, args) ← parseDefHeader line
      let (body, rem, ln2) ← parseBodyE rest (lineno + 1)
      let tail ← parseProgramEAux fuel rem ln2
      .ok (.solarDef name args body :: tail)
    else do
      let st ← parseLineE line lineno
      let tail ← parseProgramEAux fuel rest (lineno + 1)
      .ok (st :: tail)

/-- Translation of `parse_program(src)` on pre-split lines. -/
def parseProgramE (lines : List String) : Except SolErr (List EStmt) :=
  parseProgramEAux (lines.length + 1) lines 1

/-- Runtime values of the compiled program: numbers, strings and the
`None` that `vars_.get` yields for a missing name. -/
inductive Value where
  | int (z : Int)
  | float (q : Rat)
  | str (s : String)
  | none
deriving DecidableEq, Repr

/-- Expressions as they appear in emitted code: `_emit_expr` handles
numbers, strings and variable reads (`vars_.get(name)`) and raises
`TypeError` on anything else, so call expressions never reach the
runtime. -/
inductive RExpr where
  | num (v : PyNum)
  | str (s : String)
  | var (name : String)
deriving DecidableEq, Repr

/-- Instructions of the lowered program, one per emitted statement shape
of `_emit_stmt`: a store write, a builtin `print`, a registry lookup and
call, a function definition plus registry install, and an opaque UI
dispatch carrying the command and its raw argument tokens. -/
inductive Instr where
  | setVar (name : String) (e : RExpr)
  | printI (es : List RExpr)
  | callFn (name : String) (args : List RExpr)
  | defFn (name : String) (params : List String) (body : List Instr)
  | uiDispatch (cmd : String) (args : List String)

/-- A registry entry: a user-defined function (its lowered body executes
against the shared store and registry, parameters are bound as Python
locals the body never reads) or the built-in `print_many`. -/
inductive FuncV where
  | user (params : List String) (body : List Instr)
  | printMany

/-- Runtime state: variable store, function registry, output trace and
the trace of opaque UI dispatches. -/
structure RState where
  vars : List (String × Value)
  funcs : List (String × FuncV)
  out : List (List Value)
  fx : List (String × List String)

/-- Semantics of `_emit_expr`: numbers and strings are literals; a variable
read is `vars_.get(name)`, `None` when absent. -/
def evalR (e : RExpr) (vars : List (String × Value)) : Value :=
  match e with
  | .num (.int z) => .int z
  | .num (.float q) => .float q
  | .str s => .str s
  | .var n => (vars.lookup n).getD Value.none

/-- Lowering of an expression (`_emit_expr`): raises `TypeError` on a
call expression, which the parser in fact never produces in an emitted
position. -/
def lowerExpr : EExpr → Except SolErr RExpr
  | .num v => .ok (.num v)
  | .str s => .ok (.str s)
  | .var n => .ok (.var n)
  | .callE _ _ => .error .typeErr

/-- Lowering of a list of expressions, left to right. -/
def lowerExprs : List EExpr → Except SolErr (List RExpr)
  | [] => .ok []
  | e :: rest => do
    let r ← lowerExpr e
    let rs ← lowerExprs rest
    .ok (r :: rs)

mutual

/-- Semantics of `_emit_stmt`, one statement: the list of instructions the
emitted Python lines perform.  A `SolarDef` lowers its body at compile
time and installs the function at the point the definition executes; a
`UiStmt` lowers to a single dispatch carrying the command and raw tokens
(the quoted flags are not part of the emitted call). -/
def lowerStmt : EStmt → Except SolErr (List Instr)
  | .letS n e => do
    let r ← lowerExpr e
    .ok [.setVar n r]
  | .print es => do
    let rs ← lowerExprs es
    .ok [.printI rs]
  | .callStmt n args => do
    let rs ← lowerExprs args
    .ok [.callFn n rs]
  | .solarDef n ps body => do
    let bs ← lowerStmts body
    .ok [.defFn n ps bs]
  | .ui cmd args _quoted => .ok [.uiDispatch cmd args]

/-- Lowering of a statement list: concatenation in document order. -/
def lowerStmts : List EStmt → Except SolErr (List Instr)
  | [] => .ok []
  | s :: rest => do
    let a ← lowerStmt s
    let b ← lowerStmts rest
    .ok (a ++ b)

end

/-- Execution of the lowered program.  Fuel decreases on every step; the
registry is consulted at call time: a missing name raises the
unknown-function error carrying the name, a user function checks arity
and runs its body against the same store and registry, the `print`
builtins append to the output trace, and a UI dispatch appends to the
opaque effect trace. -/
def exec : Nat → List Instr → RState → Except SolErr RState
  | 0, _, _ => .error .fuelOut
  | _ + 1, [], st => .ok st
  | fuel + 1, i :: rest, st =>
    match i with
    | .setVar n e => exec fuel rest { st with vars := (n, evalR e st.vars) :: st.vars }
    | .printI es => exec fuel rest { st with out := st.out ++ [es.map (fun e => evalR e st.vars)] }
    | .uiDispatch c a => exec fuel rest { st with fx := st.fx ++ [(c, a)] }
    | .defFn n ps body => exec fuel rest { st with funcs := (n, .user ps body) :: st.funcs }
    | .callFn n args =>
      match st.funcs.lookup n with
      | Option.none => .error (.unknownFunction n)
      | some .printMany =>
          exec fuel rest { st with out := st.out ++ [args.map (fun e => evalR e st.vars)] }
      | some (.user ps body) =>
          if args.length = ps.length then
            match exec fuel body st with
            | .ok st2 => exec fuel rest st2
            | .error e => .error e
          else .error .arityErr

/-- Initial state of `run_file` when no registry is supplied: an empty
store and the two `print` builtins. -/
def initState : RState :=
  { vars := [], funcs := [("print", .printMany), ("print_many", .printMany)],
    out := [], fx := [] }

/-- Parse, lower and run a source (given as its line list). -/
def runProgramE (lines : List String) (fuel : Nat) : Except SolErr RState := do
  let prog ← parseProgramE lines
  let instrs ← lowerStmts prog
  exec fuel instrs initState

end Engine

namespace Interp

/-! Shallow embedding of `interpreter/interpreter.py` (Solar v1.0.2):
tokenizer `tokenize_line` with parenthesis groups, expression parser
`parse_expr`, statement parser `parse_solar_line`, the line classifier
(`starts_python_block`, `looks_like_python_single_line`) and program
parser `parse_prog`, plus the lowering `actual_interpreter_func`. -/

/-- Error message of an unterminated string literal. -/
def unclosedStrMsg : String := "Oh noes! Solar threw an error: unclosed string literal"

/-- Error message of an unbalanced parenthesis group. -/
def unclosedGroupMsg : String := "Oh noes! Solar threw an error: unclosed parentheses group"

/-- Prefix a message with the standard line-numbered error banner. -/
def lineMsg (lineno : Nat) (rest : String) : String :=
  "Oh noes! Solar threw an error: Line " ++ toString lineno ++ ": " ++ rest

/-- Translation of `read_paren_group`: consume a balanced parenthesis span as one token,
re-reading embedded strings (whose escapes are therefore normalized away,
as in the source which re-appends the unescaped content between fresh
quotes) so that parens inside strings do not count toward the depth.  The
accumulator is kept reversed.  Fuel is the remaining length plus one. -/
def readGroupAux : Nat → Nat → List Char → List Char →
    Except SolErr (List Char × List Char)
  | 0, _, _, _ => .error .fuelOut
  | fuel + 1, depth, acc, cs =>
    match cs with
    | [] => if depth ≠ 0 then .error (.syntaxErr unclosedGroupMsg) else .ok (acc.reverse, [])
    | c :: rest =>
      if c = '"' || c = (Char.ofNat 39) then
        match readStr c rest with
        | some (content, rest2) =>
            readGroupAux fuel depth (c :: (content.reverse ++ (c :: acc))) rest2
        | none => .error (.syntaxErr unclosedStrMsg)
      else if c = '(' then readGroupAux fuel (depth + 1) (c :: acc) rest
      else if c = ')' then
        if depth = 1 then .ok ((c :: acc).reverse, rest)
        else readGroupAux fuel (depth - 1) (c :: acc) rest
      else readGroupAux fuel depth (c :: acc) rest

/-- Main loop of `tokenize_line`: whitespace-separated tokens; a quoted
string yields a quoted token, a parenthesis group yields one unquoted
token, any other run extends to the next whitespace or unescaped `(`. -/
def tokenizeILAux : Nat → List Char → List (String × Bool) →
    Except SolErr (List (String × Bool))
  | 0, _, _ => .error .fuelOut
  | fuel + 1, cs, acc =>
    let cs := cs.dropWhile Char.isWhitespace
    match cs with
    | [] => .ok acc.reverse
    | c :: rest =>
      if c = '"' || c = (Char.ofNat 39) then
        match readStr c rest with
        | some (content, rest2) => tokenizeILAux fuel rest2 ((String.mk content, true) :: acc)
        | none => .error (.syntaxErr unclosedStrMsg)
      else if c = '(' then
        match readGroupAux (cs.length + 1) 0 [] cs with
        | .ok (grp, rest2) => tokenizeILAux fuel rest2 ((String.mk grp, false) :: acc)
        | .error e => .error e
      else
        let run := cs.takeWhile (fun ch => !ch.isWhitespace && ch ≠ '(')
        tokenizeILAux fuel (cs.drop run.length) ((String.mk run, false) :: acc)

/-- Translation of `tokenize_line(line)`: tokens with their quoted flags. -/
def tokenizeIL (line : String) : Except SolErr (List (String × Bool)) :=
  tokenizeILAux (line.length + 1) line.toList []

/-- Expressions of the interpreter AST (`Num`, `String`, `Var`,
`RawExpr`). -/
inductive IExpr where
  | num (v : PyNum)
  | str (s : String)
  | var (name : String)
  | rawExpr (src : String)
deriving DecidableEq, Repr

/-- Statements of the interpreter AST, one constructor per dataclass.
`uiButton`/`uiBind` inline the fields of the `Call` they carry. -/
inductive IStmt where
  | letS (name : String) (expr : IExpr)
  | print (expr : IExpr)
  | call (funcName : String) (args : List IExpr)
  | pyRaw (raw : String)
  | containImport (module : String)
  | ifThen (cond : IExpr) (thenStmt : IStmt)
  | uiWindow (name : String)
  | uiTitle (win : String) (title : IExpr)
  | uiSize (win : String) (w : IExpr) (h : IExpr)
  | uiBg (win : String) (color : IExpr)
  | uiFg (win : String) (color : IExpr)
  | uiLabel (win : String) (name : String) (text : IExpr) (x : IExpr) (y : IExpr)
  | uiButton (win : String) (name : String) (text : IExpr) (x : IExpr) (y : IExpr)
      (onName : String) (onArgs : List IExpr)
  | uiEntry (win : String) (name : String) (x : IExpr) (y : IExpr)
  | uiSlider (win : String) (name : String) (minv : IExpr) (maxv : IExpr)
      (x : IExpr) (y : IExpr)
  | uiCheckbox (win : String) (name : String) (text : IExpr) (x : IExpr) (y : IExpr)
  | uiBind (win : String) (key : String) (callName : String) (callArgs : List IExpr)
  | uiRun (win : String)
  | uiText (widget : String) (text : IExpr)
  | uiSet (varname : String) (value : IExpr)
  | uiGetInto (varname : String) (target : String)
  | pgInit
  | pgWindow (name : String) (w : IExpr) (h : IExpr) (title : IExpr)
  | pgFps (name : String) (fps : IExpr)
  | pgLoop (name : String)
  | pgEnd
  | pgPoll (name : String)
  | pgQuitIf (name : String)
  | pgClear (name : String) (r : IExpr) (g : IExpr) (b : IExpr)
  | pgRect (name : String) (x : IExpr) (y : IExpr) (w : IExpr) (h : IExpr)
      (r : IExpr) (g : IExpr) (b : IExpr)
  | pgCircle (name : String) (x : IExpr) (y : IExpr) (rad : IExpr)
      (r : IExpr) (g : IExpr) (b : IExpr)
  | pgText (name : String) (text : IExpr) (x : IExpr) (y : IExpr) (size : IExpr)
      (r : IExpr) (g : IExpr) (b : IExpr)
  | pgFlip (name : String)
  | pgTick (name : String) (fps : IExpr)
  | pgKeyInto (name : String) (key : String) (target : String)
  | pgStop (name : String)
deriving DecidableEq, Repr

/-- Translation of `parse_expr(token, lineno, was_quoted)`: a quoted token is a string
literal; otherwise strip, try `float` when a dot is present, else `int`;
on failure a valid identifier is a variable reference and anything else a
raw expression carrying the (stripped) source text. -/
def parseExpr (token : String) (wasQuoted : Bool) : IExpr :=
  if wasQuoted then .str token
  else
    let s := pyStrip token
    if s.toList.contains '.' then
      match pyFloatParse s with
      | some q => .num (.float q)
      | none => if pyIsIdentifier s then .var s else .rawExpr s
    else
      match pyIntParse s with
      | some z => .num (.int z)
      | none => if pyIsIdentifier s then .var s else .rawExpr s

/-- Token (text and quoted flag) at an index, an `IndexError` when out of
range: models an unguarded `parts[i]`/`quoted[i]` subscript. -/
def tokAt (tq : List (String × Bool)) (i : Nat) : Except SolErr (String × Bool) :=
  match tq.get? i with
  | some p => .ok p
  | none => .error .indexErr

/-- Parsed expression at a token index (`parse_expr(parts[i], lineno,
quoted[i])`), `IndexError` when out of range. -/
def pexpAt (tq : List (String × Bool)) (i : Nat) : Except SolErr IExpr :=
  (tokAt tq i).map (fun p => parseExpr p.1 p.2)

/-- Parsed expressions of all tokens from an index on. -/
def pexpFrom (tq : List (String × Bool)) (i : Nat) : List IExpr :=
  (tq.drop i).map (fun p => parseExpr p.1 p.2)

/-- Translation of `parse_solar_line(raw_line, lineno)`: strip the line, tokenize, and
dispatch on the head token (`if`-`then`, `let`, `print`, `call`, the `ui`
sub-commands, the `pg` sub-commands, and a bare call as the fallback).
Length checks that the source guards with an explicit `SyntaxError` are
modelled as such; unguarded subscripts are `tokAt`/`pexpAt` and raise
`IndexError`.  Fuel bounds the `if`-`then` recursion. -/
def parseSolarLineAux : Nat → String → Nat → Except SolErr IStmt
  | 0, _, _ => .error .fuelOut
  | fuel + 1, rawLine, lineno => do
    let line := pyStrip rawLine
    let tq ← tokenizeIL line
    match tq with
    | [] => .error (.syntaxErr "empty")
    | (head, _) :: _ =>
      let parts := tq.map Prod.fst
      if head = "if" && parts.contains "then" then
        let thenI := parts.indexOf "then"
        if thenI < 2 || thenI = parts.length - 1 then
          .error (.syntaxErr (lineMsg lineno "bad if-then"))
        else
          let condSrc := joinSep " " ((parts.drop 1).take (thenI - 1))
          let cond := parseExpr condSrc false
          let thenLine := joinSep " " (parts.drop (thenI + 1))
          match parseSolarLineAux fuel thenLine lineno with
          | .ok thenStmt => .ok (.ifThen cond thenStmt)
          | .error e => .error e
      else if head = "let" then
        if parts.length < 4 || parts.get? 2 ≠ some "=" then
          .error (.syntaxErr (lineMsg lineno "expected `let <name> = <expr>`"))
        else
          match parts.get? 1, tq.get? 3 with
          | some name, some t3 =>
            let exprSrc := joinSep " " (parts.drop 3)
            let wasQuoted := (parts.drop 3).length = 1 && t3.2
            .ok (.letS name (parseExpr exprSrc wasQuoted))
          | _, _ => .error .indexErr
      else if head = "print" then
        if parts.length < 2 then
          .error (.syntaxErr (lineMsg lineno "expected `print <expr>`"))
        else if parts.length = 2 then do
          let e ← pexpAt tq 1
          .ok (.print e)
        else
          .ok (.call "print_many" (pexpFrom tq 1))
      else if head = "call" then
        if parts.length < 2 then
          .error (.syntaxErr (lineMsg lineno "expected `call <func> [args...]`"))
        else
          match parts.get? 1 with
          | some fn => .ok (.call fn (pexpFrom tq 2))
          | none => .error .indexErr
      else if head = "ui" then
        if parts.length < 3 then
          .error (.syntaxErr (lineMsg lineno "bad ui statement"))
        else do
          let cmd := (parts.get? 1).getD ""
          if cmd = "window" then do
            let w ← tokAt tq 2
            .ok (.uiWindow w.1)
          else if cmd = "title" then do
            let w ← tokAt tq 2
            let t ← pexpAt tq 3
            .ok (.uiTitle w.1 t)
          else if cmd = "size" then do
            let w ← tokAt tq 2
            let a ← pexpAt tq 3
            let b ← pexpAt tq 4
            .ok (.uiSize w.1 a b)
          else if cmd = "bg" then do
            let w ← tokAt tq 2
            let c ← pexpAt tq 3
            .ok (.uiBg w.1 c)
          else if cmd = "fg" then do
            let w ← tokAt tq 2
            let c ← pexpAt tq 3
            .ok (.uiFg w.1 c)
          else if cmd = "label" then
            if !(parts.contains "at") then
              .error (.syntaxErr (lineMsg lineno "label needs `at x y`"))
            else do
              let atI := parts.indexOf "at"
              let w ← tokAt tq 2
              let n ← tokAt tq 3
              let t ← pexpAt tq 4
              let x ← pexpAt tq (atI + 1)
              let y ← pexpAt tq (atI + 2)
              .ok (.uiLabel w.1 n.1 t x y)
          else if cmd = "button" then
            if !(parts.contains "at") || !(parts.contains "do") then
              .error (.syntaxErr (lineMsg lineno "button needs `at x y do ...`"))
            else do
              let atI := parts.indexOf "at"
              let doI := parts.indexOf "do"
              let w ← tokAt tq 2
              let n ← tokAt tq 3
              let t ← pexpAt tq 4
              let x ← pexpAt tq (atI + 1)
              let y ← pexpAt tq (atI + 2)
              let fn ← tokAt tq (doI + 1)
              .ok (.uiButton w.1 n.1 t x y fn.1 (pexpFrom tq (doI + 2)))
          else if cmd = "entry" then
            if !(parts.contains "at") then
              .error (.syntaxErr (lineMsg lineno "entry needs `at x y`"))
            else do
              let atI := parts.indexOf "at"
              let w ← tokAt tq 2
              let n ← tokAt tq 3
              let x ← pexpAt tq (atI + 1)
              let y ← pexpAt tq (atI + 2)
              .ok (.uiEntry w.1 n.1 x y)
          else if cmd = "slider" then
            if !(parts.contains "from") || !(parts.contains "to") || !(parts.contains "at") then
              .error (.syntaxErr (lineMsg lineno "slider needs `from a to b at x y`"))
            else do
              let fromI := parts.indexOf "from"
              let toI := parts.indexOf "to"
              let atI := parts.indexOf "at"
              let w ← tokAt tq 2
              let n ← tokAt tq 3
              let a ← pexpAt tq (fromI + 1)
              let b ← pexpAt tq (toI + 1)
              let x ← pexpAt tq (atI + 1)
              let y ← pexpAt tq (atI + 2)
              .ok (.uiSlider w.1 n.1 a b x y)
          else if cmd = "checkbox" then
            if !(parts.contains "at") then
              .error (.syntaxErr (lineMsg lineno "checkbox needs `at x y`"))
            else do
              let atI := parts.indexOf "at"
              let w ← tokAt tq 2
              let n ← tokAt tq 3
              let t ← pexpAt tq 4
              let x ← pexpAt tq (atI + 1)
              let y ← pexpAt tq (atI + 2)
              .ok (.uiCheckbox w.1 n.1 t x y)
          else if cmd = "bind" then
            if !(parts.contains "do") then
              .error (.syntaxErr (lineMsg lineno "bind needs `do ...`"))
            else do
              let doI := parts.indexOf "do"
              let w ← tokAt tq 2
              let k ← tokAt tq 3
              let fn ← tokAt tq (doI + 1)
              .ok (.uiBind w.1 k.1 fn.1 (pexpFrom tq (doI + 2)))
          else if cmd = "text" then do
            let w ← tokAt tq 2
            let t ← pexpAt tq 3
            .ok (.uiText w.1 t)
          else if cmd = "set" then do
            let v ← tokAt tq 2
            let t ← pexpAt tq 3
            .ok (.uiSet v.1 t)
          else if cmd = "get" then
            if parts.length < 5 || parts.get? 3 ≠ some "into" then
              .error (.syntaxErr (lineMsg lineno "expected `ui get <var> into <name>`"))
            else do
              let v ← tokAt tq 2
              let t ← tokAt tq 4
              .ok (.uiGetInto v.1 t.1)
          else if cmd = "run" then do
            let w ← tokAt tq 2
            .ok (.uiRun w.1)
          else
            .error (.syntaxErr (lineMsg lineno ("unknown ui command: " ++ cmd)))
      else if head = "pg" then
        if parts.length < 2 then
          .error (.syntaxErr (lineMsg lineno "bad pg statement"))
        else do
          let cmd := (parts.get? 1).getD ""
          if cmd = "init" then .ok .pgInit
          else if cmd = "window" then
            if parts.length < 6 then
              .error (.syntaxErr (lineMsg lineno "pg window <name> <w> <h> <title>"))
            else do
              let n ← tokAt tq 2
              let w ← pexpAt tq 3
              let h ← pexpAt tq 4
              let t ← pexpAt tq 5
              .ok (.pgWindow n.1 w h t)
          else if cmd = "fps" then
            if parts.length < 4 then
              .error (.syntaxErr (lineMsg lineno "pg fps <name> <fps>"))
            else do
              let n ← tokAt tq 2
              let f ← pexpAt tq 3
              .ok (.pgFps n.1 f)
          else if cmd = "loop" then
            if parts.length < 3 then
              .error (.syntaxErr (lineMsg lineno "pg loop <name>"))
            else do
              let n ← tokAt tq 2
              .ok (.pgLoop n.1)
          else if cmd = "end" then .ok .pgEnd
          else if cmd = "poll" then
            if parts.length < 3 then
              .error (.syntaxErr (lineMsg lineno "pg poll <name>"))
            else do
              let n ← tokAt tq 2
              .ok (.pgPoll n.1)
          else if cmd = "quitif" then
            if parts.length < 3 then
              .error (.syntaxErr (lineMsg lineno "pg quitif <name>"))
            else do
              let n ← tokAt tq 2
              .ok (.pgQuitIf n.1)
          else if cmd = "stop" then
            if parts.length < 3 then
              .error (.syntaxErr (lineMsg lineno "pg stop <name>"))
            else do
              let n ← tokAt tq 2
              .ok (.pgStop n.1)
          else if cmd = "clear" then
            if parts.length < 6 then
              .error (.syntaxErr (lineMsg lineno "pg clear <name> <r> <g> <b>"))
            else do
              let n ← tokAt tq 2
              let r ← pexpAt tq 3
              let g ← pexpAt tq 4
              let b ← pexpAt tq 5
              .ok (.pgClear n.1 r g b)
          else if cmd = "rect" then
            if parts.length < 10 then
              .error (.syntaxErr (lineMsg lineno "pg rect <name> x y w h r g b"))
            else do
              let n ← tokAt tq 2
              let x ← pexpAt tq 3
              let y ← pexpAt tq 4
              let w ← pexpAt tq 5
              let h ← pexpAt tq 6
              let r ← pexpAt tq 7
              let g ← pexpAt tq 8
              let b ← pexpAt tq 9
              .ok (.pgRect n.1 x y w h r g b)
          else if cmd = "circle" then
            if parts.length < 9 then
              .error (.syntaxErr (lineMsg lineno "pg circle <name> x y rad r g b"))
            else do
              let n ← tokAt tq 2
              let x ← pexpAt tq 3
              let y ← pexpAt tq 4
              let rad ← pexpAt tq 5
              let r ← pexpAt tq 6
              let g ← pexpAt tq 7
              let b ← pexpAt tq 8
              .ok (.pgCircle n.1 x y rad r g b)
          else if cmd = "text" then
            if parts.length < 10 then
              .error (.syntaxErr (lineMsg lineno "pg text <name> <text> x y size r g b"))
            else do
              let n ← tokAt tq 2
              let t ← pexpAt tq 3
              let x ← pexpAt tq 4
              let y ← pexpAt tq 5
              let sz ← pexpAt tq 6
              let r ← pexpAt tq 7
              let g ← pexpAt tq 8
              let b ← pexpAt tq 9
              .ok (.pgText n.1 t x y sz r g b)
          else if cmd = "flip" then
            if parts.length < 3 then
              .error (.syntaxErr (lineMsg lineno "pg flip <name>"))
            else do
              let n ← tokAt tq 2
              .ok (.pgFlip n.1)
          else if cmd = "tick" then
            if parts.length < 4 then
              .error (.syntaxErr (lineMsg lineno "pg tick <name> <fps>"))
            else do
              let n ← tokAt tq 2
              let f ← pexpAt tq 3
              .ok (.pgTick n.1 f)
          else if cmd = "key" then
            if parts.length < 6 || parts.get? 4 ≠ some "into" then
              .error (.syntaxErr (lineMsg lineno "pg key <name> <K> into <var>"))
            else do
              let n ← tokAt tq 2
              let k ← tokAt tq 3
              let t ← tokAt tq 5
              .ok (.pgKeyInto n.1 k.1 t.1)
          else
            .error (.syntaxErr (lineMsg lineno ("unknown pg command: " ++ cmd)))
      else
        .ok (.call head (pexpFrom tq 1))

/-- Wrapper of `parse_solar_line` with sufficient fuel for the `if`-`then` recursion
(each recursive call parses a strictly shorter rejoined line). -/
def parseSolarLine (line : String) (lineno : Nat) : Except SolErr IStmt :=
  parseSolarLineAux (line.length + 1) line lineno

/-- Translation of `starts_python_block(raw_line)`: `def`/`class`/decorator headers, or
any line whose stripped form ends with a colon. -/
def startsPythonBlock (raw : String) : Bool :=
  let s := pyLStrip raw
  if s = "" then false
  else if startsWithS s "def " || startsWithS s "class " || startsWithS s "@" then true
  else endsWithS (pyRStrip s) ":"

/-- Translation of `looks_like_python_single_line(raw_line)`: Solar keyword heads are
never python; `import`/`from` heads are; an `=` outside the `let` binding
form is; `funcs[`/`vars_[` prefixes are. -/
def looksLikePythonSingleLine (raw : String) : Bool :=
  let s := pyLStrip raw
  if s = "" then false
  else if startsWithS s "contain " || startsWithS s "let " || startsWithS s "print " ||
      startsWithS s "call " || startsWithS s "ui " || startsWithS s "pg " ||
      startsWithS s "if " then false
  else if startsWithS s "import " || startsWithS s "from " then true
  else if s.toList.contains '=' && !(startsWithS (pyStrip s) "let ") then true
  else if startsWithS s "funcs[" || startsWithS s "vars_[" then true
  else false

/-- Drop any of the given trailing characters (`str.rstrip(" ;,")`). -/
def dropTrailingIn (s : String) (bad : List Char) : String :=
  String.mk (s.toList.reverse.dropWhile (fun c => bad.contains c)).reverse

/-- The `contain <module>` branch of `parse_prog`: take the remainder of
the stripped line, cut a trailing comment, strip trailing separators, and
require a dotted chain of identifiers; otherwise a `SyntaxError` is
raised (and, being raised outside the `try`, never downgraded). -/
def parseContain (line : String) (lineno : Nat) : Except SolErr IStmt :=
  let stripped := pyStrip line
  let rest0 := pyStrip (dropS stripped ("contain".length))
  let rest1 := if rest0.toList.contains '#' then pyStrip ((splitOnCharS rest0 '#').headD "") else rest0
  let m := dropTrailingIn rest1 [' ', ';', ',']
  if m = "" || !((m.splitOn ".").all (fun part => pyIsIdentifier part)) then
    .error (.syntaxErr (lineMsg lineno "`contain <module>` expects a valid module name"))
  else .ok (.containImport m)

/-- Translation of `parse_prog(src)` over pre-split lines, threading the
`in_py_block` flag.  Blank and comment lines are skipped (but kept
verbatim inside a python block); an indented line continues a python
block; `contain` lines are directives; python-looking lines become
verbatim `pyRaw`; everything else is parsed as a Solar statement, and
only a `SyntaxError` from that parse is downgraded to a verbatim `pyRaw`
line — any other exception propagates. -/
def parseProgAux : List String → Nat → Bool → Except SolErr (List IStmt)
  | [], _, _ => .ok []
  | raw :: rest, lineno, inPy =>
    let line := raw
    if pyStrip line = "" then
      if inPy then do
        let tail ← parseProgAux rest (lineno + 1) inPy
        .ok (.pyRaw line :: tail)
      else parseProgAux rest (lineno + 1) inPy
    else if startsWithS (pyLStrip line) "#" then
      if inPy then do
        let tail ← parseProgAux rest (lineno + 1) inPy
        .ok (.pyRaw line :: tail)
      else parseProgAux rest (lineno + 1) inPy
    else if inPy && (startsWithS line " " || startsWithS line "\x09") then do
      let tail ← parseProgAux rest (lineno + 1) true
      .ok (.pyRaw line :: tail)
    else if startsWithS (pyStrip line) "contain " then do
      let st ← parseContain line lineno
      let tail ← parseProgAux rest (lineno + 1) false
      .ok (st :: tail)
    else if startsPythonBlock line then do
      let tail ← parseProgAux rest (lineno + 1) true
      .ok (.pyRaw line :: tail)
    else if looksLikePythonSingleLine line then do
      let tail ← parseProgAux rest (lineno + 1) false
      .ok (.pyRaw line :: tail)
    else
      match parseSolarLine line lineno with
      | .ok st => do
          let tail ← parseProgAux rest (lineno + 1) false
          .ok (st :: tail)
      | .error (.syntaxErr _) => do
          let tail ← parseProgAux rest (lineno + 1) false
          .ok (.pyRaw line :: tail)
      | .error e => .error e

/-- Translation of `parse_prog(src)` on pre-split lines. -/
def parseProg (lines : List String) : Except SolErr (List IStmt) :=
  parseProgAux lines 1 false

end Interp

/-- Escape the body of a Python string literal quoted by `q`: backslash,
the quote character and the common control characters.  (Further
non-printable escaping of the host `repr` is outside the model; the
emitted names and tokens relevant here never contain such characters.) -/
def pyEscape (q : Char) (s : String) : String :=
  String.mk (s.toList.flatMap (fun c =>
    if c = '\\' then ['\\', '\\']
    else if c = q then ['\\', q]
    else if c = (Char.ofNat 10) then ['\\', 'n']
    else if c = (Char.ofNat 13) then ['\\', 'r']
    else if c = (Char.ofNat 9) then ['\\', 't']
    else [c]))

/-- Model of the host `repr` on strings: single-quoted, switching to
double quotes when the text contains a single quote but no double
quote. -/
def pyRepr (s : String) : String :=
  let sq := Char.ofNat 39
  let dq := Char.ofNat 34
  if s.toList.contains sq && !(s.toList.contains dq) then
    String.mk (dq :: (pyEscape dq s).toList ++ [dq])
  else
    String.mk (sq :: (pyEscape sq s).toList ++ [sq])

/-- Model of the host `repr` on floats whose exact value has a
power-of-ten denominator (every value the literal parser produces):
shortest digits, at least one fractional digit.  (Scientific notation
for extreme magnitudes is not modelled; no theorem depends on it.) -/
def reprFloat (q : Rat) : String :=
  let sign := if q.num < 0 then "-" else ""
  let n := q.num.natAbs
  let den := q.den
  if den = 1 then sign ++ toString n ++ ".0"
  else
    match (List.range 40).find? (fun k => (10 ^ k) % den = 0) with
    | some k =>
      let scaled := n * (10 ^ k) / den
      let ipart := scaled / 10 ^ k
      let fpart := scaled % 10 ^ k
      let fs0 := toString fpart
      let fs1 := String.mk (List.replicate (k - fs0.length) '0') ++ fs0
      let fs2 := String.mk (fs1.toList.reverse.dropWhile (fun c => c = '0')).reverse
      let fs3 := if fs2 = "" then "0" else fs2
      sign ++ toString ipart ++ "." ++ fs3
    | none => sign ++ toString n ++ "/" ++ toString den

namespace Interp

/-- Translation of `expr_to_py(expr)`: the Python expression text a lowered expression
evaluates. -/
def exprToPy : IExpr → String
  | .num (.int z) => toString z
  | .num (.float q) => reprFloat q
  | .str s => pyRepr s
  | .var n => "vars_.get(" ++ pyRepr n ++ ")"
  | .rawExpr src => "__eval_expr(" ++ pyRepr src ++ ")"

/-- Indentation prefix: four spaces per level. -/
def ind (n : Nat) : String := String.mk (List.replicate (4 * n) ' ')

/-- Translation of `compile_one(stmt)`: the restricted emitter used for the body of an
`if`-`then` statement; it handles `Let`, `Print`, `Call` and `PgStop` and
emits `pass` for every other statement kind. -/
def compileOne (stmt : IStmt) (indent : Nat) : List String :=
  match stmt with
  | .letS n e => [ind indent ++ "vars_[" ++ pyRepr n ++ "] = " ++ exprToPy e]
  | .print e => [ind indent ++ "print(" ++ exprToPy e ++ ")"]
  | .call n args =>
      [ind indent ++ "_fn = funcs.get(" ++ pyRepr n ++ ")",
       ind indent ++ "if _fn is None: raise NameError(\x27Oh noes! Solar threw an error: Unknown function: " ++ n ++ "\x27)",
       ind indent ++ "_fn(" ++ joinSep ", " (args.map exprToPy) ++ ")"]
  | .pgStop n =>
      [ind indent ++ "__pg.get(" ++ pyRepr n ++ ", \x7b\x7d)[\x27running\x27] = False"]
  | _ => [ind indent ++ "pass"]

/-- Compile-time emitter state: current indentation and the stack of open
`pg loop` blocks. -/
structure EmitSt where
  indent : Nat
  pgStack : List String
deriving DecidableEq, Repr

/-- The body lines `actual_interpreter_func` emits for one statement, and
the emitter state afterwards.  `containImport` is handled by the outer
loop (it only touches the module prelude) and emits nothing here. -/
def emitIStmt (stmt : IStmt) (st : EmitSt) : List String × EmitSt :=
  let e := st.indent
  let p := ind e
  match stmt with
  | .containImport _ => ([], st)
  | .pyRaw raw => ([p ++ raw], st)
  | .ifThen cond thenStmt =>
      ((p ++ "if __truthy(" ++ exprToPy cond ++ "):") :: compileOne thenStmt (e + 1), st)
  | .letS n ex => ([p ++ "vars_[" ++ pyRepr n ++ "] = " ++ exprToPy ex], st)
  | .print ex => ([p ++ "print(" ++ exprToPy ex ++ ")"], st)
  | .call n args =>
      ([p ++ "_fn = funcs.get(" ++ pyRepr n ++ ")",
        p ++ "if _fn is None: raise NameError(\x27Oh noes! Solar threw an error: Unknown function: " ++ n ++ "\x27)",
        p ++ "_fn(" ++ joinSep ", " (args.map exprToPy) ++ ")"], st)
  | .uiWindow n =>
      ([p ++ "__wins[" ++ pyRepr n ++ "] = ctk.CTk()",
        p ++ "__uistyle[" ++ pyRepr n ++ "] = \x7b\x27bg\x27: None, \x27fg\x27: None\x7d",
        p ++ "__apply_style(" ++ pyRepr n ++ ", __wins[" ++ pyRepr n ++ "], \x27root\x27)"], st)
  | .uiTitle w t => ([p ++ "__wins[" ++ pyRepr w ++ "].title(" ++ exprToPy t ++ ")"], st)
  | .uiSize w a b =>
      ([p ++ "__wins[" ++ pyRepr w ++ "].geometry(str(" ++ exprToPy a ++
        ") + \x27x\x27 + str(" ++ exprToPy b ++ "))"], st)
  | .uiBg w c =>
      ([p ++ "__uistyle.setdefault(" ++ pyRepr w ++ ", \x7b\x27bg\x27: None, \x27fg\x27: None\x7d)[\x27bg\x27] = " ++ exprToPy c,
        p ++ "__apply_style(" ++ pyRepr w ++ ", __wins[" ++ pyRepr w ++ "], \x27root\x27)",
        p ++ "for __n, __w in list(__widgets.items()):",
        ind (e + 1) ++ "try:",
        ind (e + 2) ++ "if getattr(__w, \x27master\x27, None) is __wins[" ++ pyRepr w ++ "]:",
        ind (e + 3) ++ "__apply_style(" ++ pyRepr w ++ ", __w, \x27widget\x27)",
        ind (e + 1) ++ "except Exception:",
        ind (e + 2) ++ "pass"], st)
  | .uiFg w c =>
      ([p ++ "__uistyle.setdefault(" ++ pyRepr w ++ ", \x7b\x27bg\x27: None, \x27fg\x27: None\x7d)[\x27fg\x27] = " ++ exprToPy c,
        p ++ "for __n, __w in list(__widgets.items()):",
        ind (e + 1) ++ "try:",
        ind (e + 2) ++ "if getattr(__w, \x27master\x27, None) is __wins[" ++ pyRepr w ++ "]:",
        ind (e + 3) ++ "__apply_style(" ++ pyRepr w ++ ", __w, \x27widget\x27)",
        ind (e + 1) ++ "except Exception:",
        ind (e + 2) ++ "pass"], st)
  | .uiLabel w n t x y =>
      ([p ++ "__widgets[" ++ pyRepr n ++ "] = ctk.CTkLabel(__wins[" ++ pyRepr w ++ "], text=" ++ exprToPy t ++ ")",
        p ++ "__apply_style(" ++ pyRepr w ++ ", __widgets[" ++ pyRepr n ++ "], \x27widget\x27)",
        p ++ "__widgets[" ++ pyRepr n ++ "].place(x=" ++ exprToPy x ++ ", y=" ++ exprToPy y ++ ")"], st)
  | .uiButton w n t x y fn fargs =>
      ([p ++ "def __cb_" ++ n ++ "():",
        ind (e + 1) ++ "_fn = funcs.get(" ++ pyRepr fn ++ ")",
        ind (e + 1) ++ "if _fn is None: raise NameError(\x27Oh noes! Solar threw an error: Unknown function: " ++ fn ++ "\x27)",
        ind (e + 1) ++ "_fn(" ++ joinSep ", " (fargs.map exprToPy) ++ ")",
        p ++ "__st = __style_defaults(" ++ pyRepr w ++ ")",
        p ++ "__btn_tc = __st.get(\x27fg\x27)",
        p ++ "__widgets[" ++ pyRepr n ++ "] = ctk.CTkButton(__wins[" ++ pyRepr w ++ "], text=" ++ exprToPy t ++ ", command=__cb_" ++ n ++ ", text_color=__btn_tc if __btn_tc is not None else None)",
        p ++ "__widgets[" ++ pyRepr n ++ "].place(x=" ++ exprToPy x ++ ", y=" ++ exprToPy y ++ ")"], st)
  | .uiEntry w n x y =>
      ([p ++ "__uivars[" ++ pyRepr n ++ "] = tk.StringVar()",
        p ++ "__widgets[" ++ pyRepr n ++ "] = ctk.CTkEntry(__wins[" ++ pyRepr w ++ "], textvariable=__uivars[" ++ pyRepr n ++ "])",
        p ++ "__apply_style(" ++ pyRepr w ++ ", __widgets[" ++ pyRepr n ++ "], \x27widget\x27)",
        p ++ "__widgets[" ++ pyRepr n ++ "].place(x=" ++ exprToPy x ++ ", y=" ++ exprToPy y ++ ")",
        p ++ "vars_[" ++ pyRepr n ++ "] = __uivars[" ++ pyRepr n ++ "]"], st)
  | .uiSlider w n a b x y =>
      ([p ++ "__uivars[" ++ pyRepr n ++ "] = tk.IntVar()",
        p ++ "__widgets[" ++ pyRepr n ++ "] = ctk.CTkSlider(__wins[" ++ pyRepr w ++ "], from_=" ++ exprToPy a ++ ", to=" ++ exprToPy b ++ ", variable=__uivars[" ++ pyRepr n ++ "])",
        p ++ "__apply_style(" ++ pyRepr w ++ ", __widgets[" ++ pyRepr n ++ "], \x27widget\x27)",
        p ++ "__widgets[" ++ pyRepr n ++ "].place(x=" ++ exprToPy x ++ ", y=" ++ exprToPy y ++ ")",
        p ++ "vars_[" ++ pyRepr n ++ "] = __uivars[" ++ pyRepr n ++ "]"], st)
  | .uiCheckbox w n t x y =>
      ([p ++ "__uivars[" ++ pyRepr n ++ "] = tk.IntVar()",
        p ++ "__widgets[" ++ pyRepr n ++ "] = ctk.CTkCheckBox(__wins[" ++ pyRepr w ++ "], text=" ++ exprToPy t ++ ", variable=__uivars[" ++ pyRepr n ++ "])",
        p ++ "__apply_style(" ++ pyRepr w ++ ", __widgets[" ++ pyRepr n ++ "], \x27widget\x27)",
        p ++ "__widgets[" ++ pyRepr n ++ "].place(x=" ++ exprToPy x ++ ", y=" ++ exprToPy y ++ ")",
        p ++ "vars_[" ++ pyRepr n ++ "] = __uivars[" ++ pyRepr n ++ "]"], st)
  | .uiBind w k fn fargs =>
      ([p ++ "def __bind_" ++ fn ++ "(event=None):",
        ind (e + 1) ++ "_fn = funcs.get(" ++ pyRepr fn ++ ")",
        ind (e + 1) ++ "if _fn is None: raise NameError(\x27Oh noes! Solar threw an error: Unknown function: " ++ fn ++ "\x27)",
        ind (e + 1) ++ "_fn(" ++ joinSep ", " (fargs.map exprToPy) ++ ")",
        p ++ "__wins[" ++ pyRepr w ++ "].bind(\x27<" ++ k ++ ">\x27, __bind_" ++ fn ++ ")"], st)
  | .uiText widget t =>
      ([p ++ "__w = __widgets.get(" ++ pyRepr widget ++ ")",
        p ++ "if __w is None: raise NameError(\x27Oh noes! Solar threw an error: Unknown widget: " ++ widget ++ "\x27)",
        p ++ "try:",
        ind (e + 1) ++ "__w.configure(text=" ++ exprToPy t ++ ")",
        p ++ "except Exception:",
        ind (e + 1) ++ "pass"], st)
  | .uiSet v val =>
      ([p ++ "__v = vars_.get(" ++ pyRepr v ++ ")",
        p ++ "if __v is None: raise NameError(\x27Oh noes! Solar threw an error: Unknown ui var: " ++ v ++ "\x27)",
        p ++ "try:",
        ind (e + 1) ++ "__v.set(" ++ exprToPy val ++ ")",
        p ++ "except Exception:",
        ind (e + 1) ++ "vars_[" ++ pyRepr v ++ "] = " ++ exprToPy val], st)
  | .uiGetInto v target =>
      ([p ++ "__v = vars_.get(" ++ pyRepr v ++ ")",
        p ++ "if __v is None: raise NameError(\x27Oh noes! Solar threw an error: Unknown ui var: " ++ v ++ "\x27)",
        p ++ "try:",
        ind (e + 1) ++ "vars_[" ++ pyRepr target ++ "] = __v.get()",
        p ++ "except Exception:",
        ind (e + 1) ++ "vars_[" ++ pyRepr target ++ "] = __v"], st)
  | .uiRun w => ([p ++ "__wins[" ++ pyRepr w ++ "].mainloop()"], st)
  | .pgInit => ([p ++ "import pygame", p ++ "pygame.init()"], st)
  | .pgWindow n w h t =>
      ([p ++ "import pygame",
        p ++ "__pg[" ++ pyRepr n ++ "] = \x7b\x27running\x27: True, \x27fps\x27: 60, \x27events\x27: [], \x27keys\x27: None, \x27font_cache\x27: \x7b\x7d\x7d",
        p ++ "__pg[" ++ pyRepr n ++ "][\x27w\x27] = int(" ++ exprToPy w ++ ")",
        p ++ "__pg[" ++ pyRepr n ++ "][\x27h\x27] = int(" ++ exprToPy h ++ ")",
        p ++ "__pg[" ++ pyRepr n ++ "][\x27screen\x27] = pygame.display.set_mode((__pg[" ++ pyRepr n ++ "][\x27w\x27], __pg[" ++ pyRepr n ++ "][\x27h\x27]))",
        p ++ "pygame.display.set_caption(str(" ++ exprToPy t ++ "))",
        p ++ "__pg[" ++ pyRepr n ++ "][\x27clock\x27] = pygame.time.Clock()"], st)
  | .pgFps n f =>
      ([p ++ "__pg.get(" ++ pyRepr n ++ ", \x7b\x7d)[\x27fps\x27] = int(" ++ exprToPy f ++ ")"], st)
  | .pgLoop n =>
      ([p ++ "while __pg.get(" ++ pyRepr n ++ ", \x7b\x7d).get(\x27running\x27, False):"],
       { st with indent := e + 1, pgStack := n :: st.pgStack })
  | .pgEnd =>
      match st.pgStack with
      | [] => ([], st)
      | _ :: stack2 => ([], { st with indent := max 1 (e - 1), pgStack := stack2 })
  | .pgPoll n =>
      ([p ++ "import pygame",
        p ++ "__pg[" ++ pyRepr n ++ "][\x27events\x27] = pygame.event.get()",
        p ++ "__pg[" ++ pyRepr n ++ "][\x27keys\x27] = pygame.key.get_pressed()"], st)
  | .pgQuitIf n =>
      ([p ++ "import pygame",
        p ++ "for __ev in __pg[" ++ pyRepr n ++ "].get(\x27events\x27, []):",
        ind (e + 1) ++ "if __ev.type == pygame.QUIT:",
        ind (e + 2) ++ "__pg[" ++ pyRepr n ++ "][\x27running\x27] = False"], st)
  | .pgStop n =>
      ([p ++ "__pg.get(" ++ pyRepr n ++ ", \x7b\x7d)[\x27running\x27] = False"], st)
  | .pgClear n r g b =>
      ([p ++ "import pygame",
        p ++ "__pg[" ++ pyRepr n ++ "][\x27screen\x27].fill((int(" ++ exprToPy r ++ "), int(" ++ exprToPy g ++ "), int(" ++ exprToPy b ++ ")))"], st)
  | .pgRect n x y w h r g b =>
      ([p ++ "import pygame",
        p ++ "pygame.draw.rect(__pg[" ++ pyRepr n ++ "][\x27screen\x27], (int(" ++ exprToPy r ++ "), int(" ++ exprToPy g ++ "), int(" ++ exprToPy b ++ ")), pygame.Rect(int(" ++ exprToPy x ++ "), int(" ++ exprToPy y ++ "), int(" ++ exprToPy w ++ "), int(" ++ exprToPy h ++ ")))"], st)
  | .pgCircle n x y rad r g b =>
      ([p ++ "import pygame",
        p ++ "pygame.draw.circle(__pg[" ++ pyRepr n ++ "][\x27screen\x27], (int(" ++ exprToPy r ++ "), int(" ++ exprToPy g ++ "), int(" ++ exprToPy b ++ ")), (int(" ++ exprToPy x ++ "), int(" ++ exprToPy y ++ ")), int(" ++ exprToPy rad ++ "))"], st)
  | .pgText n t x y sz r g b =>
      ([p ++ "import pygame",
        p ++ "__fc = __pg[" ++ pyRepr n ++ "].setdefault(\x27font_cache\x27, \x7b\x7d)",
        p ++ "__sz = int(" ++ exprToPy sz ++ ")",
        p ++ "__font = __fc.get(__sz)",
        p ++ "if __font is None:",
        ind (e + 1) ++ "pygame.font.init()",
        ind (e + 1) ++ "__font = pygame.font.SysFont(None, __sz)",
        ind (e + 1) ++ "__fc[__sz] = __font",
        p ++ "__surf = __font.render(str(" ++ exprToPy t ++ "), True, (int(" ++ exprToPy r ++ "), int(" ++ exprToPy g ++ "), int(" ++ exprToPy b ++ ")))",
        p ++ "__pg[" ++ pyRepr n ++ "][\x27screen\x27].blit(__surf, (int(" ++ exprToPy x ++ "), int(" ++ exprToPy y ++ ")))"], st)
  | .pgFlip _ => ([p ++ "import pygame", p ++ "pygame.display.flip()"], st)
  | .pgTick n f =>
      ([p ++ "import pygame",
        p ++ "__pg[" ++ pyRepr n ++ "][\x27clock\x27].tick(int(" ++ exprToPy f ++ "))"], st)
  | .pgKeyInto n k target =>
      ([p ++ "import pygame",
        p ++ "__keys = __pg[" ++ pyRepr n ++ "].get(\x27keys\x27)",
        p ++ "__k = getattr(pygame, " ++ pyRepr k ++ ", None)",
        p ++ "if __keys is None or __k is None:",
        ind (e + 1) ++ "vars_[" ++ pyRepr target ++ "] = 0",
        p ++ "else:",
        ind (e + 1) ++ "vars_[" ++ pyRepr target ++ "] = 1 if __keys[__k] else 0"], st)

/-- State of the lowering loop of `actual_interpreter_func`: the set of
already-imported modules, the module prelude, the emitter state and the
per-statement body lines emitted so far.  (The fixed helper text the
function also places inside `__run` — the sandboxed evaluator, the UI
style helpers — is statement-independent and modelled separately by the
`Sandbox` semantics.) -/
structure LowSt where
  seen : List String
  prelude : List String
  emit : EmitSt
  runAcc : List String

/-- One statement of the lowering loop: a `contain` directive appends
one import line to the module prelude, only on the first occurrence of
the module name;
every other statement appends its emitted lines to the run body. -/
def lowerStep (st : LowSt) (s : IStmt) : LowSt :=
  match s with
  | .containImport m =>
      if st.seen.contains m then st
      else { st with seen := m :: st.seen, prelude := st.prelude ++ ["import " ++ m] }
  | s =>
      let (ls, e2) := emitIStmt s st.emit
      { st with emit := e2, runAcc := st.runAcc ++ ls }

/-- The lowering pass: module prelude (the banner comment plus one import
line per distinct `contain`-ed module, in first-occurrence order) and the
emitted per-statement body of `__run`. -/
def lowerInterp (prog : List IStmt) : List String × List String :=
  let st := prog.foldl lowerStep
    { seen := [], prelude := ["# --- compiled by Solar v1.0.2-beta ---"],
      emit := { indent := 1, pgStack := [] }, runAcc := [] }
  (st.prelude, st.runAcc)

end Interp

namespace Sandbox

/-! Shallow embedding of the sandboxed expression evaluator that
`actual_interpreter_func` emits as `__eval_expr` (interpreter.py lines
861-894): the expression source is parsed by the host `ast` module, every
node of the walk must be an instance of the allow-listed node classes,
attributes with a double-underscore prefix and a fixed set of dangerous
names are rejected, and the surviving tree is evaluated with empty
builtins against the variable snapshot updated with a safe function set.

The host AST is modelled as a tree of node kinds with payloads; the walk
visits a node before its children (the host `ast.walk` is breadth-first,
which changes only which offending node is reported first, not whether
one is).  Host evaluation is modelled on the fragment the claims
exercise — constants, names, and integer arithmetic — with a
`hostUnmodelled` fallback elsewhere. -/

/-- Node-class kinds that can occur in a walked expression tree,
including operator and context nodes, which `ast.walk` visits as nodes of
their own. -/
inductive NodeK where
  | expression | binOp | unaryOp | boolOp | compare | name | load | constant
  | callK | attribute | subscript | slice | indexK
  | add | sub | mult | divK | floorDiv | modK | powK | uAdd | uSub | andK | orK
  | eq | notEq | lt | ltE | gt | gtE | notK | invert
  | bitAnd | bitOr | bitXor | lShift | rShift
  | ifExp | listK | tupleK | dictK
  | matMult | isK | isNotK | inK | notInK
  | lambdaK | genExpK | namedExprK | starredK
deriving DecidableEq, Repr

/-- The `allowed` tuple of `__eval_expr`: exactly the kinds listed there
are instances of an allow-listed class. -/
def allowedK : NodeK → Bool
  | .matMult | .isK | .isNotK | .inK | .notInK
  | .lambdaK | .genExpK | .namedExprK | .starredK => false
  | _ => true

/-- The host class name of a node kind, used in the blocked-construct
message. -/
def kindName : NodeK → String
  | .expression => "Expression" | .binOp => "BinOp" | .unaryOp => "UnaryOp"
  | .boolOp => "BoolOp" | .compare => "Compare" | .name => "Name"
  | .load => "Load" | .constant => "Constant" | .callK => "Call"
  | .attribute => "Attribute" | .subscript => "Subscript" | .slice => "Slice"
  | .indexK => "Index" | .add => "Add" | .sub => "Sub" | .mult => "Mult"
  | .divK => "Div" | .floorDiv => "FloorDiv" | .modK => "Mod" | .powK => "Pow"
  | .uAdd => "UAdd" | .uSub => "USub" | .andK => "And" | .orK => "Or"
  | .eq => "Eq" | .notEq => "NotEq" | .lt => "Lt" | .ltE => "LtE"
  | .gt => "Gt" | .gtE => "GtE" | .notK => "Not" | .invert => "Invert"
  | .bitAnd => "BitAnd" | .bitOr => "BitOr" | .bitXor => "BitXor"
  | .lShift => "LShift" | .rShift => "RShift" | .ifExp => "IfExp"
  | .listK => "List" | .tupleK => "Tuple" | .dictK => "Dict"
  | .matMult => "MatMult" | .isK => "Is" | .isNotK => "IsNot"
  | .inK => "In" | .notInK => "NotIn" | .lambdaK => "Lambda"
  | .genExpK => "GeneratorExp" | .namedExprK => "NamedExpr"
  | .starredK => "Starred"

/-- Binary operator node kinds. -/
inductive BinK where
  | add | sub | mult | divB | floorDiv | modB | powB | matMult
  | bitAnd | bitOr | bitXor | lShift | rShift
deriving DecidableEq, Repr

/-- Unary operator node kinds. -/
inductive UnK where
  | uAdd | uSub | notU | invert
deriving DecidableEq, Repr

/-- Boolean operator node kinds. -/
inductive BoolK where
  | andB | orB
deriving DecidableEq, Repr

/-- Comparison operator node kinds, including the identity and
membership operators absent from the allow list. -/
inductive CmpK where
  | eq | notEq | lt | ltE | gt | gtE | isC | isNot | inC | notIn
deriving DecidableEq, Repr

/-- Node kind of a binary operator. -/
def binNodeK : BinK → NodeK
  | .add => .add | .sub => .sub | .mult => .mult | .divB => .divK
  | .floorDiv => .floorDiv | .modB => .modK | .powB => .powK
  | .matMult => .matMult | .bitAnd => .bitAnd | .bitOr => .bitOr
  | .bitXor => .bitXor | .lShift => .lShift | .rShift => .rShift

/-- Node kind of a unary operator. -/
def unNodeK : UnK → NodeK
  | .uAdd => .uAdd | .uSub => .uSub | .notU => .notK | .invert => .invert

/-- Node kind of a boolean operator. -/
def boolNodeK : BoolK → NodeK
  | .andB => .andK | .orB => .orK

/-- Node kind of a comparison operator. -/
def cmpNodeK : CmpK → NodeK
  | .eq => .eq | .notEq => .notEq | .lt => .lt | .ltE => .ltE
  | .gt => .gt | .gtE => .gtE | .isC => .isK | .isNot => .isNotK
  | .inC => .inK | .notIn => .notInK

/-- Constants of the host expression grammar. -/
inductive PyConst where
  | int (z : Int)
  | float (q : Rat)
  | str (s : String)
  | bool (b : Bool)
  | noneC
deriving DecidableEq, Repr

/-- Payload-carrying kind of an expression node. -/
inductive PyKind where
  | expression
  | constant (c : PyConst)
  | name (id : String)
  | binop (op : BinK)
  | unaryop (op : UnK)
  | boolop (op : BoolK)
  | compare (ops : List CmpK)
  | callK
  | attribute (attr : String)
  | subscript
  | ifExp
  | listK
  | tupleK
  | dictK
  | lambdaK (params : List String)
  | genExpK
  | namedExprK (target : String)
  | starredK
deriving DecidableEq, Repr

mutual

/-- A host expression AST node: a kind with payload and an ordered list
of child expression nodes. -/
inductive PyAst where
  | node (k : PyKind) (ch : PyAstL)

/-- Child list of an AST node. -/
inductive PyAstL where
  | nil
  | cons (hd : PyAst) (tl : PyAstL)

end

/-- What a walked node contributes to the per-node checks: its kind, its
attribute name when it is an `Attribute`, its identifier when it is a
`Name`. -/
structure NodeMeta where
  kind : NodeK
  attr : Option String
  id : Option String
deriving DecidableEq, Repr

/-- The walk entries contributed by one node (the node itself plus the
operator and context nodes it owns). -/
def metasOfKind : PyKind → List NodeMeta
  | .expression => [⟨.expression, none, none⟩]
  | .constant _ => [⟨.constant, none, none⟩]
  | .name id => [⟨.name, none, some id⟩, ⟨.load, none, none⟩]
  | .binop op => [⟨.binOp, none, none⟩, ⟨binNodeK op, none, none⟩]
  | .unaryop op => [⟨.unaryOp, none, none⟩, ⟨unNodeK op, none, none⟩]
  | .boolop op => [⟨.boolOp, none, none⟩, ⟨boolNodeK op, none, none⟩]
  | .compare ops => ⟨.compare, none, none⟩ :: ops.map (fun op => ⟨cmpNodeK op, none, none⟩)
  | .callK => [⟨.callK, none, none⟩]
  | .attribute a => [⟨.attribute, some a, none⟩, ⟨.load, none, none⟩]
  | .subscript => [⟨.subscript, none, none⟩, ⟨.load, none, none⟩]
  | .ifExp => [⟨.ifExp, none, none⟩]
  | .listK => [⟨.listK, none, none⟩, ⟨.load, none, none⟩]
  | .tupleK => [⟨.tupleK, none, none⟩, ⟨.load, none, none⟩]
  | .dictK => [⟨.dictK, none, none⟩]
  | .lambdaK _ => [⟨.lambdaK, none, none⟩]
  | .genExpK => [⟨.genExpK, none, none⟩]
  | .namedExprK _ => [⟨.namedExprK, none, none⟩]
  | .starredK => [⟨.starredK, none, none⟩]

mutual

/-- The walk of a tree: the node entries followed by the walks of the
children. -/
def walkMeta : PyAst → List NodeMeta
  | .node k ch => metasOfKind k ++ walkMetaL ch

/-- The walk of a child list. -/
def walkMetaL : PyAstL → List NodeMeta
  | .nil => []
  | .cons a l => walkMeta a ++ walkMetaL l

end

/-- The names denied to `ast.Name` nodes regardless of arity or use. -/
def dangerousNames : List String :=
  ["__import__", "eval", "exec", "open", "compile", "globals", "locals"]

/-- The three per-node checks of `__eval_expr`, in source order: the
allow-list instance check, the dunder-attribute check, the
dangerous-name check. -/
def checkNode (nm : NodeMeta) : Option String :=
  if !(allowedK nm.kind) then some ("Solar expr blocked: " ++ kindName nm.kind)
  else if nm.kind = .attribute && startsWithS (nm.attr.getD "") "__" then
    some "Solar expr blocked: dunder attribute"
  else if nm.kind = .name && dangerousNames.contains (nm.id.getD "") then
    some "Solar expr blocked: dangerous name"
  else none

/-- The walk loop: the message of the first node failing a check, if
any. -/
def secCheck (t : PyAst) : Option String :=
  firstSome ((walkMeta t).map checkNode)

/-- Does any walked node have a kind outside the allow list? -/
def hasDisallowed (t : PyAst) : Bool :=
  (walkMeta t).any (fun nm => !(allowedK nm.kind))

/-- Runtime values of the sandboxed evaluation. -/
inductive PyVal where
  | int (z : Int)
  | float (q : Rat)
  | str (s : String)
  | bool (b : Bool)
  | noneV
  | builtin (tag : String)
deriving DecidableEq, Repr

/-- Errors of the sandboxed evaluation: a blocked construct (the
`ValueError` the walk raises), a `NameError` from the final `eval` with
empty builtins, or a host behaviour outside the modelled fragment. -/
inductive SandErr where
  | blocked (msg : String)
  | nameErr (id : String)
  | hostUnmodelled
deriving DecidableEq, Repr

/-- The evaluation environment: the variable snapshot updated with the
safe function set (which therefore shadows user variables of the same
name), with empty builtins. -/
def envOf (vars : List (String × PyVal)) : List (String × PyVal) :=
  [("math", .builtin "math"), ("random", .builtin "random"),
   ("min", .builtin "min"), ("max", .builtin "max"),
   ("abs", .builtin "abs"), ("round", .builtin "round"),
   ("int", .builtin "int"), ("float", .builtin "float"),
   ("str", .builtin "str"), ("len", .builtin "len"),
   ("clamp", .builtin "clamp"), ("randint", .builtin "randint")] ++ vars

/-- Host binary arithmetic on the modelled fragment. -/
def binEval : BinK → PyVal → PyVal → Except SandErr PyVal
  | .add, .int a, .int b => .ok (.int (a + b))
  | .sub, .int a, .int b => .ok (.int (a - b))
  | .mult, .int a, .int b => .ok (.int (a * b))
  | .add, .float a, .float b => .ok (.float (a + b))
  | .sub, .float a, .float b => .ok (.float (a - b))
  | .mult, .float a, .float b => .ok (.float (a * b))
  | .add, .str a, .str b => .ok (.str (a ++ b))
  | _, _, _ => .error .hostUnmodelled

/-- Value of a constant node. -/
def constVal : PyConst → PyVal
  | .int z => .int z
  | .float q => .float q
  | .str s => .str s
  | .bool b => .bool b
  | .noneC => .noneV

/-- Host `eval` with empty builtins against an environment, modelled on
the fragment the claims exercise: constants, name lookup (a missing name
is a `NameError`, since the builtins dict is empty) and binary integer
arithmetic. -/
def evalPy : PyAst → List (String × PyVal) → Except SandErr PyVal
  | .node .expression (.cons b .nil), env => evalPy b env
  | .node (.constant c) .nil, _ => .ok (constVal c)
  | .node (.name id) .nil, env =>
      match env.lookup id with
      | some v => .ok v
      | Option.none => .error (.nameErr id)
  | .node (.binop op) (.cons l (.cons r .nil)), env => do
      let a ← evalPy l env
      let b ← evalPy r env
      binEval op a b
  | _, _ => .error .hostUnmodelled

/-- Translation of `__eval_expr(expr_src)` on a parsed tree: run the walk checks, then
evaluate against the snapshot plus the safe set. -/
def evalSafe (t : PyAst) (vars : List (String × PyVal)) : Except SandErr PyVal :=
  match secCheck t with
  | some m => .error (.blocked m)
  | Option.none => evalPy t (envOf vars)

/-- The host parse `ast.parse("1 + 2 * 3", mode="eval")`: an `Expression`
wrapping `BinOp(Add, Constant 1, BinOp(Mult, Constant 2, Constant 3))`. -/
def astArith : PyAst :=
  .node .expression (.cons
    (.node (.binop .add) (.cons
      (.node (.constant (.int 1)) .nil) (.cons
      (.node (.binop .mult) (.cons
        (.node (.constant (.int 2)) .nil) (.cons
        (.node (.constant (.int 3)) .nil) .nil)))
      .nil)))
    .nil)

/-- The host parse of `"__class__"`: a bare `Name` node. -/
def astDunderName : PyAst :=
  .node .expression (.cons (.node (.name "__class__") .nil) .nil)

/-- The host parse of `"open('f')"`: a `Call` of the name `open` on one
string constant. -/
def astOpenCall : PyAst :=
  .node .expression (.cons
    (.node .callK (.cons
      (.node (.name "open") .nil) (.cons
      (.node (.constant (.str "f")) .nil) .nil)))
    .nil)

/-- The host parse of `"exec('1')"`: a `Call` of the name `exec` on one
string constant. -/
def astExecCall : PyAst :=
  .node .expression (.cons
    (.node .callK (.cons
      (.node (.name "exec") .nil) (.cons
      (.node (.constant (.str "1")) .nil) .nil)))
    .nil)

/-- The host parse of `"(lambda: 1)"`: an `Expression` wrapping a
`Lambda`, a node kind outside the allow list. -/
def astLambda : PyAst :=
  .node .expression (.cons
    (.node (.lambdaK []) (.cons (.node (.constant (.int 1)) .nil) .nil))
    .nil)

end Sandbox

/-! Helper lemmas shared by the claim theorems. -/

namespace Sandbox

/-- If some entry of a walk list has a kind outside the allow list, the
per-node checks report a failure. -/
theorem firstSome_check_isSome : ∀ (l : List NodeMeta),
    (l.any (fun nm => !(allowedK nm.kind))) = true →
    (firstSome (l.map checkNode)).isSome = true := by
  intro l h
  induction l with
  | nil => simp at h
  | cons hd tl ih =>
    simp only [List.any_cons, Bool.or_eq_true] at h
    simp only [List.map_cons]
    cases hck : checkNode hd with
    | some v => simp [firstSome]
    | none =>
      simp only [firstSome]
      rcases h with h | h
      · exfalso
        unfold checkNode at hck
        rw [if_pos h] at hck
        exact Option.noConfusion hck
      · exact ih h

end Sandbox

namespace Engine

/-- Lookup survives prepending an entry. -/
theorem lookup_isSome_cons {k : String} {v : FuncV} {m : String}
    {l : List (String × FuncV)} (h : (l.lookup m).isSome) :
    (((k, v) :: l).lookup m).isSome := by
  simp only [List.lookup]
  split <;> simp_all

/-- Execution never removes a registry entry: a name that resolves in the
registry before a successful run still resolves afterwards (later
definitions may overwrite, never delete). -/
theorem exec_funcs_mono : ∀ (fuel : Nat) (instrs : List Instr) (st st2 : RState),
    exec fuel instrs st = .ok st2 →
    ∀ m, (st.funcs.lookup m).isSome → (st2.funcs.lookup m).isSome := by
  intro fuel
  induction fuel with
  | zero => intro instrs st st2 h; simp [exec] at h
  | succ f ih =>
    intro instrs st st2 h m hm
    cases instrs with
    | nil =>
      simp only [exec] at h
      cases h
      exact hm
    | cons i rest =>
      cases i with
      | setVar n e =>
        simp only [exec] at h
        exact ih rest _ st2 h m hm
      | printI es =>
        simp only [exec] at h
        exact ih rest _ st2 h m hm
      | uiDispatch c a =>
        simp only [exec] at h
        exact ih rest _ st2 h m hm
      | defFn n ps b =>
        simp only [exec] at h
        exact ih rest _ st2 h m (lookup_isSome_cons hm)
      | callFn n args =>
        simp only [exec] at h
        split at h
        · exact Except.noConfusion h
        · exact ih rest _ st2 h m hm
        · rename_i ps body heq
          split at h
          · split at h
            · rename_i stB hb
              exact ih rest stB st2 h m (ih body st stB hb m hm)
            · exact Except.noConfusion h
          · exact Except.noConfusion h

/-- With no `end` line among the remaining lines, the `solar_def` body
loop consumes every one of them: nothing remains. -/
theorem parseBodyE_noEnd : ∀ (lines : List String) (ln : Nat)
    (body : List EStmt) (rem : List String) (ln2 : Nat),
    (∀ l ∈ lines, pyStrip l ≠ "end") →
    parseBodyE lines ln = .ok (body, rem, ln2) → rem = [] := by
  intro lines
  induction lines with
  | nil =>
    intro ln body rem ln2 _ h
    simp only [parseBodyE] at h
    cases h
    rfl
  | cons raw rest ih =>
    intro ln body rem ln2 hne h
    have hraw : pyStrip raw ≠ "end" := hne raw (List.mem_cons_self raw rest)
    have hrest : ∀ l ∈ rest, pyStrip l ≠ "end" := fun l hl => hne l (List.mem_cons_of_mem raw hl)
    simp only [parseBodyE] at h
    by_cases h1 : pyStrip raw = ""
    · rw [if_pos h1] at h
      exact ih (ln + 1) body rem ln2 hrest h
    · rw [if_neg h1] at h
      by_cases h2 : startsWithS (pyStrip raw) "#" = true
      · rw [if_pos h2] at h
        exact ih (ln + 1) body rem ln2 hrest h
      · rw [Bool.not_eq_true] at h2
        rw [h2, if_neg (by simp)] at h
        rw [if_neg hraw] at h
        cases hp : parseLineE (pyStrip raw) ln with
        | error e => rw [hp] at h; exact Except.noConfusion h
        | ok st =>
          rw [hp] at h
          cases hb : parseBodyE rest (ln + 1) with
          | error e =>
            rw [hb] at h
            simp only [exceptBind_ok, exceptBind_err] at h
            exact Except.noConfusion h
          | ok res =>
            obtain ⟨b2, r2, l2⟩ := res
            rw [hb] at h
            simp only [exceptBind_ok, exceptBind_err] at h
            have hr2 : r2 = [] := ih (ln + 1) b2 r2 l2 hrest hb
            cases h
            exact hr2

/-- Is a parsed expression a literal (number or string)? -/
def isLitE : EExpr → Bool
  | .num _ => true
  | .str _ => true
  | _ => false

/-- The runtime value of a literal token, as classified by
`_parse_expr`. -/
def litValE (tok : String) (q : Bool) : Value :=
  match parseExprE tok q with
  | .num (.int z) => .int z
  | .num (.float r) => .float r
  | .str s => .str s
  | _ => Value.none

end Engine

/-! The claim theorems. -/

/-- C1 (amended): for every variable snapshot, the sandboxed evaluator
returns 7 on the parse of `"1 + 2 * 3"`, and rejects `"open('f')"` and
`"exec('1')"` with the security error of the dangerous-name check,
regardless of whether those names are bound in the store; and rejection
is structural: any tree containing a node whose kind lies outside the
allow list is rejected by the walk, whatever the node is.  (The original
claim's further assertion that the bare name `"__class__"` is rejected is
refuted by the counterexample below: the dunder check applies only to
attribute nodes, and `__class__` is not in the dangerous-name set.) -/
theorem c1_thm :
    (∀ vars, Sandbox.evalSafe Sandbox.astArith vars = .ok (.int 7))
    ∧ (∀ vars, Sandbox.evalSafe Sandbox.astOpenCall vars =
        .error (.blocked "Solar expr blocked: dangerous name"))
    ∧ (∀ vars, Sandbox.evalSafe Sandbox.astExecCall vars =
        .error (.blocked "Solar expr blocked: dangerous name"))
    ∧ (∀ (t : Sandbox.PyAst) (vars : List (String × Sandbox.PyVal)),
        Sandbox.hasDisallowed t = true →
        ∃ m, Sandbox.evalSafe t vars = .error (.blocked m)) := by
  refine ⟨fun vars => rfl, fun vars => rfl, fun vars => rfl, fun t vars h => ?_⟩
  have h2 := Sandbox.firstSome_check_isSome (Sandbox.walkMeta t) h
  rw [Option.isSome_iff_exists] at h2
  obtain ⟨m, hm⟩ := h2
  exact ⟨m, by simp [Sandbox.evalSafe, Sandbox.secCheck, hm]⟩

/-- Witness for C1: the parse of `"(lambda: 1)"` contains a `Lambda`
node, a kind outside the allow list, and is rejected. -/
theorem c1_witness :
    ∃ m, Sandbox.evalSafe Sandbox.astLambda [] = .error (.blocked m) :=
  c1_thm.2.2.2 Sandbox.astLambda [] (by decide)

/-- Counterexample for C1 as stated: the raw expression `"__class__"`
parses to a bare `Name` node, which passes the walk (the dunder check
covers only `Attribute` nodes and `__class__` is not a dangerous name);
bound in the store it evaluates to the bound value, unbound it fails with
a `NameError` — in neither case with the security-violation error the
claim requires. -/
theorem c1_counterexample :
    Sandbox.evalSafe Sandbox.astDunderName [("__class__", .int 5)] = .ok (.int 5)
    ∧ Sandbox.evalSafe Sandbox.astDunderName [] = .error (.nameErr "__class__") :=
  ⟨rfl, rfl⟩

/-- C2 (amended): every line routed to statement parsing on which the
statement parser fails with a `SyntaxError` — such as `let x` — is
re-classified as a verbatim passthrough line: parsing a program headed
by the line does not raise on its account (the rest of the program is
parsed unchanged), the line becomes a `pyRaw` statement and no binding
is installed for it.  (A parser failure that is an `IndexError` rather
than a `SyntaxError` — e.g. `ui title win` — escapes the classifier; see
the counterexample below.) -/
theorem c2_thm (line : String) (msg : String)
    (h1 : ¬ (pyStrip line = ""))
    (h2 : startsWithS (pyLStrip line) "#" = false)
    (h3 : startsWithS (pyStrip line) "contain " = false)
    (h4 : Interp.startsPythonBlock line = false)
    (h5 : Interp.looksLikePythonSingleLine line = false)
    (h6 : Interp.parseSolarLine line 1 = .error (.syntaxErr msg)) :
    (∀ rest : List String,
        Interp.parseProgAux (line :: rest) 1 false =
          (Interp.parseProgAux rest 2 false).map (fun tail => .pyRaw line :: tail))
    ∧ Interp.parseProg [line] = .ok [.pyRaw line]
    ∧ ∀ n e, Interp.IStmt.pyRaw line ≠ Interp.IStmt.letS n e := by
  have hgen : ∀ rest : List String,
      Interp.parseProgAux (line :: rest) 1 false =
        (Interp.parseProgAux rest 2 false).map (fun tail => .pyRaw line :: tail) := by
    intro rest
    simp only [Interp.parseProgAux, h1, h2, h3, h4, h5, h6,
      if_neg, if_false, Bool.false_and, Bool.and_self]
    cases htail : Interp.parseProgAux rest 2 false <;> rfl
  refine ⟨hgen, ?_, ?_⟩
  · have h0 := hgen []
    rw [Interp.parseProg, h0]
    rfl
  · intro n e hne
    cases hne

/-- Witness for C2: the malformed binding `let x` is re-classified as a
passthrough line and installs nothing. -/
theorem c2_witness :
    Interp.parseProg ["let x"] = .ok [.pyRaw "let x"] :=
  (c2_thm "let x"
    "Oh noes! Solar threw an error: Line 1: expected `let <name> = <expr>`"
    (by decide) (by decide) (by decide) (by decide) (by decide) (by decide)).2.1

/-- Counterexample for C2 as stated: `ui title win` is routed to the
statement parser, which fails with an `IndexError` (the `ui title`
branch subscripts a missing fourth token without a length guard); the
classifier catches only `SyntaxError`, so parsing the whole program
raises instead of re-classifying the line as passthrough. -/
theorem c2_counterexample :
    Interp.parseProg ["ui title win"] = .error .indexErr := by
  decide

/-- C3 (confirmed): for every single token handed to the interpreter's
expression parser (single tokens carry no surrounding whitespace, so
stripping is the identity): a quoted token yields a string literal; an
unquoted token that parses as an integer — or, when it contains a dot,
as a float — yields a number literal; otherwise a valid identifier
(letters, digits, underscores, not starting with a digit) yields a
variable reference; every other token yields a raw expression carrying
the token's source text. -/
theorem c3_thm (tok : String) (h : pyStrip tok = tok) :
    Interp.parseExpr tok true = .str tok
    ∧ (('.' ∉ tok.data) → ∀ z, pyIntParse tok = some z →
        Interp.parseExpr tok false = .num (.int z))
    ∧ (('.' ∈ tok.data) → ∀ r, pyFloatParse tok = some r →
        Interp.parseExpr tok false = .num (.float r))
    ∧ (('.' ∉ tok.data) → pyIntParse tok = Option.none →
        pyIsIdentifier tok = true → Interp.parseExpr tok false = .var tok)
    ∧ (('.' ∈ tok.data) → pyFloatParse tok = Option.none →
        pyIsIdentifier tok = true → Interp.parseExpr tok false = .var tok)
    ∧ (('.' ∉ tok.data) → pyIntParse tok = Option.none →
        pyIsIdentifier tok = false → Interp.parseExpr tok false = .rawExpr tok)
    ∧ (('.' ∈ tok.data) → pyFloatParse tok = Option.none →
        pyIsIdentifier tok = false → Interp.parseExpr tok false = .rawExpr tok) := by
  refine ⟨rfl, ?_, ?_, ?_, ?_, ?_, ?_⟩
  · intro hdot z hz
    simp [Interp.parseExpr, h, hdot, hz]
  · intro hdot r hr
    simp [Interp.parseExpr, h, hdot, hr]
  · intro hdot hn hi
    simp [Interp.parseExpr, h, hdot, hn, hi]
  · intro hdot hn hi
    simp [Interp.parseExpr, h, hdot, hn, hi]
  · intro hdot hn hi
    simp [Interp.parseExpr, h, hdot, hn, hi]
  · intro hdot hn hi
    simp [Interp.parseExpr, h, hdot, hn, hi]

/-- Witness for C3: an integer token, an identifier token, an operator
span token and a float token classify as the claim states. -/
theorem c3_witness :
    Interp.parseExpr "42" false = .num (.int 42)
    ∧ Interp.parseExpr "x1" false = .var "x1"
    ∧ Interp.parseExpr "a+b" false = .rawExpr "a+b"
    ∧ Interp.parseExpr "1.5" false = .num (.float (mkRat 3 2))
    ∧ Interp.parseExpr "42" true = .str "42" :=
  ⟨(c3_thm "42" (by decide)).2.1 (by decide) 42 (by decide),
   (c3_thm "x1" (by decide)).2.2.2.1 (by decide) (by decide) (by decide),
   (c3_thm "a+b" (by decide)).2.2.2.2.2.1 (by decide) (by decide) (by decide),
   (c3_thm "1.5" (by decide)).2.2.1 (by decide) (mkRat 3 2) (by decide),
   (c3_thm "42" (by decide)).1⟩

/-- C4 (amended): a quoted token parsed on its own is always a string
literal, never a number or variable reference — in particular as the
sole right-hand-side token of a `let` binding — but in an `if`-condition
span the quoted flag is discarded: the condition text is re-parsed as
unquoted, so a quoted token there can become a variable reference (or a
number); see the counterexample below. -/
theorem c4_thm :
    (∀ s, Interp.parseExpr s true = .str s)
    ∧ (∀ (line name tok : String),
        Interp.tokenizeIL (pyStrip line) =
          .ok [("let", false), (name, false), ("=", false), (tok, true)] →
        Interp.parseSolarLine line 1 = .ok (.letS name (.str tok)))
    ∧ (∀ (line tok : String) (r1 : String × Bool) (restTq : List (String × Bool))
        (st : Interp.IStmt),
        Interp.tokenizeIL (pyStrip line) =
          .ok (("if", false) :: (tok, true) :: ("then", false) :: r1 :: restTq) →
        tok ≠ "then" →
        Interp.parseSolarLine line 1 = .ok st →
        ∃ body, st = .ifThen (Interp.parseExpr tok false) body) := by
  refine ⟨fun s => rfl, ?_, ?_⟩
  · intro line name tok htok
    simp only [Interp.parseSolarLine, Interp.parseSolarLineAux]
    rw [htok]
    rfl
  · intro line tok r1 restTq st htok hne hparse
    rw [Interp.parseSolarLine] at hparse
    simp only [Interp.parseSolarLineAux, htok] at hparse
    simp only [List.map_cons, exceptBind_ok] at hparse
    have hbeq : (("then" : String) == tok) = false := by
      simp [beq_iff_eq]
      exact fun he => hne he.symm
    have hbeq2 : (tok == "then") = false := by
      simp [beq_iff_eq]
      exact hne
    simp only [List.contains_cons, List.indexOf_cons, hbeq, hbeq2] at hparse
    simp only [List.length_cons] at hparse
    simp at hparse
    split at hparse
    · cases hparse
      exact ⟨_, rfl⟩
    all_goals exact Except.noConfusion hparse

/-- Witness for C4: the sole quoted right-hand-side token of a `let`
binding stays a string literal. -/
theorem c4_witness :
    Interp.parseSolarLine "let y = \x2242\x22" 1 = .ok (.letS "y" (.str "42")) :=
  c4_thm.2.1 "let y = \x2242\x22" "y" "42" (by decide)

/-- Counterexample for C4 as stated: in `if "x" then print 1` the quoted
token `"x"` is part of the if-condition span; the parser joins the span
and re-parses it with the quoted flag dropped, producing the variable
reference `x` — which the lowered program resolves against the variable
store — not a string literal. -/
theorem c4_counterexample :
    Interp.parseSolarLine "if \x22x\x22 then print 1" 1 =
      .ok (.ifThen (.var "x") (.print (.num (.int 1)))) := by
  decide

/-- C5 (confirmed): running the lowered program of a well-formed binding
line `let name = <literal>` whose right-hand side is a single literal
token leaves the store with exactly that literal's value under `name`: a
numeric token with a dot is stored as a float (the exact rational the
literal denotes), one without a dot as an integer, and a quoted token as
the exact string. -/
theorem c5_thm (line name tok : String) (q : Bool) (fuel : Nat)
    (h1 : Engine.tokenizeQE (pyStrip line) =
      .ok [("let", false), (name, false), ("=", false), (tok, q)])
    (h2 : ¬ (pyStrip line = ""))
    (h3 : startsWithS (pyStrip line) "#" = false)
    (h4 : startsWithS (pyStrip line) "solar_def" = false)
    (h5 : Engine.isLitE (Engine.parseExprE tok q) = true) :
    (∃ st : Engine.RState, Engine.runProgramE [line] (fuel + 2) = .ok st ∧
        st.vars.lookup name = some (Engine.litValE tok q))
    ∧ (q = true → Engine.litValE tok q = .str tok)
    ∧ (q = false → ('.' ∈ tok.data) → ∀ r, pyFloatParse tok = some r →
        Engine.litValE tok q = .float r)
    ∧ (q = false → ('.' ∉ tok.data) → ∀ z, pyIntParse tok = some z →
        Engine.litValE tok q = .int z) := by
  refine ⟨⟨Engine.RState.mk [(name, Engine.litValE tok q)] Engine.initState.funcs [] [],
      ?_, by simp [List.lookup]⟩, ?_, ?_, ?_⟩
  · cases hpe : Engine.parseExprE tok q with
    | num v =>
      cases v with
      | int z =>
        simp [Engine.runProgramE, Engine.parseProgramE, Engine.parseProgramEAux,
          h2, h3, h4, Engine.parseLineE, h1, hpe, Engine.lowerStmts, Engine.lowerStmt,
          Engine.lowerExpr, Engine.exec, Engine.evalR, Engine.litValE, Engine.initState,
          exceptBind_ok]
      | float r =>
        simp [Engine.runProgramE, Engine.parseProgramE, Engine.parseProgramEAux,
          h2, h3, h4, Engine.parseLineE, h1, hpe, Engine.lowerStmts, Engine.lowerStmt,
          Engine.lowerExpr, Engine.exec, Engine.evalR, Engine.litValE, Engine.initState,
          exceptBind_ok]
    | str sv =>
      simp [Engine.runProgramE, Engine.parseProgramE, Engine.parseProgramEAux,
        h2, h3, h4, Engine.parseLineE, h1, hpe, Engine.lowerStmts, Engine.lowerStmt,
        Engine.lowerExpr, Engine.exec, Engine.evalR, Engine.litValE, Engine.initState,
        exceptBind_ok]
    | var nv => rw [hpe] at h5; exact Bool.noConfusion h5
    | callE cn ca => rw [hpe] at h5; exact Bool.noConfusion h5
  · intro hq
    subst hq
    simp [Engine.litValE, Engine.parseExprE]
  · intro hq hdot r hr
    subst hq
    simp [Engine.litValE, Engine.parseExprE, hdot, hr]
  · intro hq hdot z hz
    subst hq
    simp [Engine.litValE, Engine.parseExprE, hdot, hz]

/-- Witness for C5: `let x = 5` stores the integer 5, `let y = 1.5`
stores the float 3/2, and a quoted token stores the exact string. -/
theorem c5_witness :
    (∃ st : Engine.RState, Engine.runProgramE ["let x = 5"] 2 = .ok st ∧
        st.vars.lookup "x" = some (Engine.litValE "5" false))
    ∧ Engine.litValE "5" false = .int 5
    ∧ (∃ st : Engine.RState, Engine.runProgramE ["let y = 1.5"] 2 = .ok st ∧
        st.vars.lookup "y" = some (Engine.litValE "1.5" false))
    ∧ Engine.litValE "1.5" false = .float (mkRat 3 2) :=
  ⟨(c5_thm "let x = 5" "x" "5" false 0 (by decide) (by decide) (by decide)
      (by decide) (by decide)).1,
   (c5_thm "let x = 5" "x" "5" false 0 (by decide) (by decide) (by decide)
      (by decide) (by decide)).2.2.2 rfl (by decide) 5 (by decide),
   (c5_thm "let y = 1.5" "y" "1.5" false 0 (by decide) (by decide) (by decide)
      (by decide) (by decide)).1,
   (c5_thm "let y = 1.5" "y" "1.5" false 0 (by decide) (by decide) (by decide)
      (by decide) (by decide)).2.2.1 rfl (by decide) (mkRat 3 2) (by decide)⟩

/-- C6 (amended): lowering an external-command (`ui`) statement produces
the single dispatch instruction carrying exactly the command and the raw
argument tokens as parsed — nothing dropped, reordered or rewritten —
and executing it appends exactly that payload to the dispatch trace; the
parser stores the raw tokens and quoted flags of the `ui` line verbatim.
The quoted flags, however, are not part of the lowered dispatch (see
the counterexample below), so the round trip preserves the tokens but not the
flags. -/
theorem c6_thm :
    (∀ (cmd : String) (args : List String) (quoted : List Bool),
        Engine.lowerStmt (.ui cmd args quoted) = .ok [.uiDispatch cmd args])
    ∧ (∀ (cmd : String) (args : List String) (fuel : Nat) (st : Engine.RState),
        Engine.exec (fuel + 2) [.uiDispatch cmd args] st =
          .ok { st with fx := st.fx ++ [(cmd, args)] })
    ∧ (∀ (line : String) (ln : Nat) (cmd : String) (cq : Bool)
        (restTq : List (String × Bool)),
        Engine.tokenizeQE line = .ok (("ui", false) :: (cmd, cq) :: restTq) →
        Engine.parseLineE line ln =
          .ok (.ui cmd (restTq.map Prod.fst) (restTq.map Prod.snd))) := by
  refine ⟨fun cmd args quoted => rfl, fun cmd args fuel st => rfl, ?_⟩
  intro line ln cmd cq restTq htok
  simp only [Engine.parseLineE, htok, exceptBind_ok]
  simp [List.map_cons]

/-- Witness for C6: a concrete `ui` line parses to the statement holding
its raw tokens and quoted flags. -/
theorem c6_witness :
    Engine.parseLineE "ui title win \x22hello\x22" 1 =
      .ok (.ui "title" ["win", "hello"] [false, true]) :=
  c6_thm.2.2 "ui title win \x22hello\x22" 1 "title" false
    [("win", false), ("hello", true)] (by decide)

/-- Counterexample for C6 as stated: two `ui` statements with the same
raw tokens but different quoted flags lower to the same instruction, so
lowering then rendering cannot reproduce the quoted flags. -/
theorem c6_counterexample :
    Engine.lowerStmt (.ui "title" ["w", "hello"] [false, true]) =
      Engine.lowerStmt (.ui "title" ["w", "hello"] [false, false])
    ∧ Engine.EStmt.ui "title" ["w", "hello"] [false, true] ≠
      Engine.EStmt.ui "title" ["w", "hello"] [false, false] := by
  refine ⟨rfl, ?_⟩
  intro h
  cases h

/-- C7 (confirmed): a call statement whose target is absent from the
function registry at the moment the call executes fails with the
unknown-function error naming that target; the registry is consulted at
call time, not at parse or lowering time — lowering a call consults no
registry at all, and a definition executed earlier in the program makes
the very same call succeed. -/
theorem c7_thm :
    (∀ (n : String) (args : List Engine.RExpr) (rest : List Engine.Instr)
        (st : Engine.RState) (fuel : Nat),
        st.funcs.lookup n = Option.none →
        Engine.exec (fuel + 1) (.callFn n args :: rest) st =
          .error (.unknownFunction n))
    ∧ (∀ n : String, Engine.lowerStmt (.callStmt n []) = .ok [.callFn n []])
    ∧ (∀ (n : String) (st : Engine.RState) (fuel : Nat),
        Engine.exec (fuel + 3) [.defFn n [] [], .callFn n []] st =
          .ok { st with funcs := (n, .user [] []) :: st.funcs }) := by
  refine ⟨?_, fun n => rfl, ?_⟩
  · intro n args rest st fuel h
    simp [Engine.exec, h]
  · intro n st fuel
    simp [Engine.exec, List.lookup]

/-- Witness for C7: calling the unregistered name `mystery` from the
initial registry fails with the unknown-function error naming it. -/
theorem c7_witness :
    Engine.exec 1 [.callFn "mystery" []] Engine.initState =
      .error (.unknownFunction "mystery") :=
  c7_thm.1 "mystery" [] [] Engine.initState 0 (by rfl)

/-- C8 (confirmed): a function definition installs its body into the
registry exactly at the point in program order where the definition
instruction executes; a name that resolves in the registry keeps
resolving after any further execution (so the function is callable from
every later statement); a call to a name absent from the registry fails
even if a definition follows it; and a zero-statement body is legal — it
produces a callable function whose call changes nothing but the
registry. -/
theorem c8_thm :
    (∀ (n : String) (ps : List String) (b : List Engine.Instr)
        (rest : List Engine.Instr) (st : Engine.RState) (fuel : Nat),
        Engine.exec (fuel + 1) (.defFn n ps b :: rest) st =
          Engine.exec fuel rest { st with funcs := (n, .user ps b) :: st.funcs })
    ∧ (∀ (fuel : Nat) (instrs : List Engine.Instr) (st st2 : Engine.RState),
        Engine.exec fuel instrs st = .ok st2 →
        ∀ m, (st.funcs.lookup m).isSome → (st2.funcs.lookup m).isSome)
    ∧ (∀ (n : String) (args : List Engine.RExpr) (rest : List Engine.Instr)
        (st : Engine.RState) (fuel : Nat),
        st.funcs.lookup n = Option.none →
        Engine.exec (fuel + 1) (.callFn n args :: .defFn n [] [] :: rest) st =
          .error (.unknownFunction n))
    ∧ (∀ (n : String) (st : Engine.RState) (fuel : Nat),
        Engine.exec (fuel + 3) [.defFn n [] [], .callFn n []] st =
          .ok { st with funcs := (n, .user [] []) :: st.funcs }) := by
  refine ⟨fun n ps b rest st fuel => rfl, Engine.exec_funcs_mono, ?_, ?_⟩
  · intro n args rest st fuel h
    simp [Engine.exec, h]
  · intro n st fuel
    simp [Engine.exec, List.lookup]

/-- Witness for C8: from the initial registry, `f0` is not callable
before its definition executes but is afterwards; registry entries
survive execution of a further definition. -/
theorem c8_witness :
    Engine.exec 1 [.callFn "f0" [], .defFn "f0" [] []] Engine.initState =
      .error (.unknownFunction "f0")
    ∧ Engine.exec 3 [.defFn "f0" [] [], .callFn "f0" []] Engine.initState =
      .ok { Engine.initState with
              funcs := ("f0", .user [] []) :: Engine.initState.funcs }
    ∧ ((({ Engine.initState with
          funcs := ("g0", Engine.FuncV.user [] []) :: Engine.initState.funcs }
        : Engine.RState).funcs.lookup "print").isSome = true) :=
  ⟨c8_thm.2.2.1 "f0" [] [] Engine.initState 0 (by rfl),
   c8_thm.2.2.2 "f0" Engine.initState 0,
   c8_thm.2.1 2 [.defFn "g0" [] []] Engine.initState _ rfl "print" (by decide)⟩

/-- C9 (confirmed): when a `solar_def` block never reaches a terminating
`end` line, `parse_program` raises no unterminated-block error: the body
loop silently consumes every remaining (parseable) non-blank,
non-comment line of the source into the function's body, nothing remains
afterwards, and the program's top level consists of the single function
definition — the statements after the missing terminator never appear at
top level. -/
theorem c9_thm (lineH : String) (rest : List String)
    (fname : String) (fargs : List String)
    (body : List Engine.EStmt) (rem : List String) (ln2 : Nat)
    (hh1 : ¬ (pyStrip lineH = ""))
    (hh2 : startsWithS (pyStrip lineH) "#" = false)
    (hh3 : startsWithS (pyStrip lineH) "solar_def" = true)
    (hh4 : Engine.parseDefHeader (pyStrip lineH) = .ok (fname, fargs))
    (hnoend : ∀ l ∈ rest, pyStrip l ≠ "end")
    (hres : Engine.parseBodyE rest 2 = .ok (body, rem, ln2)) :
    rem = []
    ∧ Engine.parseProgramE (lineH :: rest) = .ok [.solarDef fname fargs body] := by
  have hrem : rem = [] := Engine.parseBodyE_noEnd rest 2 body rem ln2 hnoend hres
  subst hrem
  refine ⟨rfl, ?_⟩
  simp [Engine.parseProgramE, Engine.parseProgramEAux, hh1, hh2, hh3, hh4, hres,
    exceptBind_ok]

/-- Witness for C9: a `solar_def f:` block with no `end` absorbs the two
remaining statements into the body and parses to a single function
definition. -/
theorem c9_witness :
    Engine.parseProgramE ["solar_def f:", "let x = 1", "print x"] =
      .ok [.solarDef "f" []
        [.letS "x" (.num (.int 1)), .print [.var "x"]]] :=
  (c9_thm "solar_def f:" ["let x = 1", "print x"] "f" []
    [.letS "x" (.num (.int 1)), .print [.var "x"]] [] 4
    (by decide) (by decide) (by decide) (by decide) (by decide) (by rfl)).2

/-- Is a statement a `contain` directive? -/
def Interp.isContain : Interp.IStmt → Bool
  | .containImport _ => true
  | _ => false

/-- A non-`contain` statement steps the lowering fold by emitting its
lines into the run body. -/
theorem Interp.lowerStep_nonContain (s : Interp.IStmt) (st : Interp.LowSt)
    (h : Interp.isContain s = false) :
    Interp.lowerStep st s =
      { st with emit := (Interp.emitIStmt s st.emit).2,
                runAcc := st.runAcc ++ (Interp.emitIStmt s st.emit).1 } := by
  cases s <;> first
    | rfl
    | exact Bool.noConfusion h

/-- A `contain` statement leaves the emitter state and the run body of
the lowering fold unchanged. -/
theorem Interp.lowerStep_contain (m : String) (st : Interp.LowSt) :
    (Interp.lowerStep st (.containImport m)).emit = st.emit
    ∧ (Interp.lowerStep st (.containImport m)).runAcc = st.runAcc := by
  simp only [Interp.lowerStep]
  split <;> exact ⟨rfl, rfl⟩

/-- The run body emitted by the lowering fold ignores `contain`
statements entirely. -/
theorem Interp.lower_run_filter : ∀ (prog : List Interp.IStmt)
    (s1 s2 : Interp.LowSt), s1.emit = s2.emit → s1.runAcc = s2.runAcc →
    (prog.foldl Interp.lowerStep s1).emit =
      ((prog.filter (fun s => !(Interp.isContain s))).foldl Interp.lowerStep s2).emit
    ∧ (prog.foldl Interp.lowerStep s1).runAcc =
      ((prog.filter (fun s => !(Interp.isContain s))).foldl Interp.lowerStep s2).runAcc := by
  intro prog
  induction prog with
  | nil => intro s1 s2 he hr; exact ⟨he, hr⟩
  | cons s rest ih =>
    intro s1 s2 he hr
    by_cases hc : Interp.isContain s = true
    · cases s <;> simp only [Interp.isContain] at hc <;> try exact Bool.noConfusion hc
      rename_i m
      simp only [List.filter_cons, Interp.isContain, Bool.not_true, List.foldl_cons]
      exact ih (Interp.lowerStep s1 (.containImport m)) s2
        ((Interp.lowerStep_contain m s1).1.trans he)
        ((Interp.lowerStep_contain m s1).2.trans hr)
    · have hc2 : Interp.isContain s = false := by simpa using hc
      simp only [List.filter_cons, hc2, Bool.not_false, List.foldl_cons, if_pos]
      rw [Interp.lowerStep_nonContain s s1 hc2, Interp.lowerStep_nonContain s s2 hc2]
      exact ih _ _ (by simp [he]) (by simp [he, hr])

/-- Cancel a shared prefix of a string append. -/
theorem strAppend_left_cancel {p a b : String} (h : p ++ a = p ++ b) : a = b := by
  cases p with
  | mk pd =>
    cases a with
    | mk ad =>
      cases b with
      | mk bd =>
        have h2 : pd ++ ad = pd ++ bd := congrArg String.data h
        have h3 : ad = bd := List.append_cancel_left h2
        rw [h3]

/-- The banner comment heading the prelude is not an import line. -/
theorem header_ne_import (m : String) :
    ("import " ++ m) ≠ "# --- compiled by Solar v1.0.2-beta ---" := by
  intro h
  have h2 := congrArg String.data h
  have h3 : ("import " ++ m).data = 'i' :: 'm' :: 'p' :: 'o' :: 'r' :: 't' :: ' ' :: m.data := by
    cases m; rfl
  rw [h3] at h2
  simp at h2

/-- Invariant of the prelude fold: a module not yet seen has no import
line, and no module ever has more than one. -/
theorem Interp.prelude_inv : ∀ (prog : List Interp.IStmt) (st : Interp.LowSt),
    (∀ m, (st.seen.contains m = false →
            st.prelude.count ("import " ++ m) = 0)
        ∧ st.prelude.count ("import " ++ m) ≤ 1) →
    (∀ m, ((prog.foldl Interp.lowerStep st).seen.contains m = false →
            (prog.foldl Interp.lowerStep st).prelude.count ("import " ++ m) = 0)
        ∧ (prog.foldl Interp.lowerStep st).prelude.count ("import " ++ m) ≤ 1) := by
  intro prog
  induction prog with
  | nil => intro st hinv; exact hinv
  | cons s rest ih =>
    intro st hinv
    rw [List.foldl_cons]
    by_cases hc : Interp.isContain s = true
    · cases s <;> simp only [Interp.isContain] at hc <;> try exact Bool.noConfusion hc
      rename_i mo
      apply ih
      intro m
      simp only [Interp.lowerStep]
      by_cases hseen : st.seen.contains mo = true
      · rw [if_pos hseen]
        exact hinv m
      · rw [if_neg hseen]
        have hseen2 : st.seen.contains mo = false := by simpa using hseen
        by_cases hm : m = mo
        · subst hm
          constructor
          · intro hcontra
            simp [List.contains_cons] at hcontra
          · rw [List.count_append, (hinv m).1 hseen2]
            simp [List.count_cons]
        · constructor
          · intro hns
            simp only [List.contains_cons, Bool.or_eq_false_iff] at hns
            rw [List.count_append, (hinv m).1 hns.2]
            have hne2 : (("import " ++ mo) == ("import " ++ m)) = false := by
              simp only [beq_eq_false_iff_ne, ne_eq]
              intro hcontra
              exact hm (strAppend_left_cancel hcontra).symm
            simp [List.count_cons, hne2]
          · have hne2 : (("import " ++ mo) == ("import " ++ m)) = false := by
              simp only [beq_eq_false_iff_ne, ne_eq]
              intro hcontra
              exact hm (strAppend_left_cancel hcontra).symm
            rw [List.count_append]
            simp [List.count_cons, hne2]
            exact (hinv m).2
    · have hc2 : Interp.isContain s = false := by simpa using hc
      rw [Interp.lowerStep_nonContain s st hc2]
      exact ih _ hinv

/-- C10 (confirmed): lowering `contain <module>` directives is idempotent
per module name — for every program the compiled module prelude carries
at most one `import <module>` line per distinct module, however often
the directive repeats — and the import lines live in the prelude only:
the emitted body of the run function is exactly that of the program with
every `contain` directive removed. -/
theorem c10_thm :
    (∀ (prog : List Interp.IStmt) (m : String),
        (Interp.lowerInterp prog).1.count ("import " ++ m) ≤ 1)
    ∧ (∀ prog : List Interp.IStmt,
        (Interp.lowerInterp prog).2 =
          (Interp.lowerInterp (prog.filter (fun s => !(Interp.isContain s)))).2) := by
  constructor
  · intro prog m
    have h := Interp.prelude_inv prog
      { seen := [], prelude := ["# --- compiled by Solar v1.0.2-beta ---"],
        emit := { indent := 1, pgStack := [] }, runAcc := [] }
      (by
        intro m2
        have hne : (("# --- compiled by Solar v1.0.2-beta ---" : String)
            == ("import " ++ m2)) = false := by
          simp only [beq_eq_false_iff_ne, ne_eq]
          intro hcontra
          exact header_ne_import m2 hcontra.symm
        constructor
        · intro _
          simp [List.count_cons, List.count_nil, hne]
        · simp [List.count_cons, List.count_nil, hne])
    exact (h m).2
  · intro prog
    exact (Interp.lower_run_filter prog _ _ rfl rfl).2

end Solar
